import Mathlib

/-!
Decentraleyes state manager (`src/core/state-manager.js`).

A shallow embedding of the state manager: the tab registry, the request
correlator, the injection registry with its badge commands, the header
sanitizer, and the commands sent to the host (badge text, storage reads and
writes, listener registration).

Modelling conventions.

* A JavaScript object used as a dictionary (`stateManager.tabs`,
  `stateManager.requests`, `registeredTab.injections`,
  `requestAnalyzer.whitelistedDomains`) is an association list of its own
  properties. The source only reads a property, writes a property, deletes a
  property, or counts the own keys, so the enumeration order is not observable.
* These objects are created by `{}`, so they inherit from `Object.prototype`.
  A read `obj[k]` with a text key also finds the inherited members
  (`JSObject.objectPrototypeNames`), and a write `obj['__proto__'] = v` goes to
  the inherited accessor and adds no own property (`JSObject.assign`): an object
  `v` becomes the prototype, any other `v` is ignored. Tab identifiers are
  integers, never the name of an inherited member, so `stateManager.tabs` is
  read and written through its own properties alone.
* The prototype of `stateManager.requests` is observable (a read can reach it)
  and is kept in `State.requestsPrototype`. The prototype of an injection set can
  change too, but the source only counts the own keys of an injection set.
* Everything the source sends to the host is appended to `State.log`.
* `chrome.storage.local.set` updates `State.storedAmountInjected` at once;
  `chrome.storage.local.get` queues its callback together with the value that
  is stored when the read is issued.
* A JavaScript exception is the `error` field of an `Outcome`; the `state`
  field is the state at the moment the exception is thrown.
* The lifetime counter is a JavaScript number, a double: `none` stands for a
  value that `isNaN` accepts (`undefined`, `NaN`), `some c` for the integer `c`.
  The increment `++` rounds to the nearest double (`jsIncrement`), so it is exact
  only up to 2^53.
* A callback the host runs later is a function of its own: `amountInjectedCallback`
  for a queued storage read, `tabsQueryCallback` for `chrome.tabs.query`,
  `loadShowIconBadge` for the start-up read of `showIconBadge`.
* The host's registrations of `_stripMetadata` on `onBeforeSendHeaders` are counted
  in `State.headerListeners`.
-/

namespace JSObject

/-- The value of the own property `k` of an object, if there is one. For an
integer key this is the read `obj[k]`; for a text key the read also reaches the
prototype, see `objectPrototypeNames`. -/
def get? {κ α : Type} [DecidableEq κ] : List (κ × α) → κ → Option α
  | [], _ => none
  | (k', v') :: rest, k => if k' = k then some v' else get? rest k

/-- The own properties after the own property `k` is written: overwritten in
place, or added. For an integer key this is the write `obj[k] = v`; for a text key
see `assign`. -/
def set {κ α : Type} [DecidableEq κ] : List (κ × α) → κ → α → List (κ × α)
  | [], k, v => [(k, v)]
  | (k', v') :: rest, k, v =>
    if k' = k then (k, v) :: rest else (k', v') :: set rest k v

/-- Property removal `delete obj[k]`: the own property `k` goes, if there is one;
an inherited member of that name stays. -/
def delete {κ α : Type} [DecidableEq κ] : List (κ × α) → κ → List (κ × α)
  | [], _ => []
  | (k', v') :: rest, k =>
    if k' = k then delete rest k else (k', v') :: delete rest k

/-- Own keys `Object.keys(obj)`. -/
def keys {κ α : Type} (obj : List (κ × α)) : List κ :=
  obj.map Prod.fst

/-- The property names every object created by `{}` inherits from
`Object.prototype`. Each is a function, except `__proto__`, an accessor that
yields the prototype; all are truthy when read. -/
def objectPrototypeNames : List String :=
  ["constructor", "__defineGetter__", "__defineSetter__", "hasOwnProperty",
   "__lookupGetter__", "__lookupSetter__", "isPrototypeOf", "propertyIsEnumerable",
   "toString", "valueOf", "__proto__", "toLocaleString"]

/-- Property write `obj[k] = v` with a text key on an object created by `{}`: the
own properties afterwards. The name `__proto__` is the inherited accessor, so the
write adds no own property; every other name is written as an own property. -/
def assign {α : Type} (obj : List (String × α)) (k : String) (v : α) : List (String × α) :=
  if k = "__proto__" then obj else set obj k v

end JSObject

namespace stateManager

/-- An injection: `{source, path, version}` (the `targetDetails` of a mapping). -/
structure Injection where
  source : String
  path : String
  version : String
deriving DecidableEq, Repr

/-- A tab record: `{'injections': {}}`. -/
structure TabRecord where
  injections : List (String × Injection)
deriving DecidableEq, Repr

/-- An entry of `stateManager.requests`: `{tabIdentifier, targetDetails}`. -/
structure PendingRequest where
  tabIdentifier : Int
  targetDetails : Injection
deriving DecidableEq, Repr

/-- Commands sent to the host. -/
inductive Command where
  /-- Host call `chrome.browserAction.setBadgeText({tabId, text})`. -/
  | setBadgeText (tabId : Int) (text : String)
  /-- Host call `chrome.storage.local.get('amountInjected', callback)`. -/
  | storageGetAmountInjected
  /-- Host call `chrome.storage.local.set({'amountInjected': value})`. -/
  | storageSetAmountInjected (value : Option Int)
  /-- Host call `chrome.storage.local.set({whitelistedDomains}, resolve)`. -/
  | storageSetWhitelistedDomains (value : List (String × Bool))
  /-- Host call `chrome.webRequest.onBeforeRequest.addListener` with filter `tabId`. -/
  | addRequestListener (tabId : Int)
  /-- Host call `chrome.webRequest.onBeforeSendHeaders.removeListener`. -/
  | removeHeaderListener
  /-- Host call `chrome.webRequest.onBeforeSendHeaders.addListener`. -/
  | addHeaderListener
  /-- Host call `chrome.tabs.query({}, callback)`. -/
  | queryTabs
deriving DecidableEq, Repr

/-- A thrown JavaScript exception. -/
inductive JSError where
  /-- Property access on `undefined`. -/
  | typeError
deriving DecidableEq, Repr

/-- The state the module reads and writes. -/
structure State where
  /-- Field `stateManager.tabs`. -/
  tabs : List (Int × TabRecord)
  /-- Field `stateManager.requests`: its own properties. -/
  requests : List (String × PendingRequest)
  /-- The prototype of `stateManager.requests`: `none` is `Object.prototype`,
  `some r` is the record `r` that a write `requests['__proto__'] = r` put there. -/
  requestsPrototype : Option PendingRequest
  /-- Field `stateManager.showIconBadge`; `none` is `undefined`. -/
  showIconBadge : Option Bool
  /-- Field `interceptor.amountInjected`, a double; `none` is a value `isNaN`
  accepts, `some c` the integer `c`. -/
  amountInjected : Option Int
  /-- Field `requestAnalyzer.whitelistedDomains`. -/
  whitelistedDomains : List (String × Bool)
  /-- Stored value of the key `amountInjected`. -/
  storedAmountInjected : Option Int
  /-- Stored value of the key `whitelistedDomains`. -/
  storedWhitelistedDomains : List (String × Bool)
  /-- Queued callbacks of `storage.local.get('amountInjected')`, each with the value read. -/
  pendingReads : List (Option Int)
  /-- Number of registrations of `_stripMetadata` on `onBeforeSendHeaders`. -/
  headerListeners : Nat
  /-- Commands sent to the host so far, oldest first. -/
  log : List Command
deriving DecidableEq, Repr

/-- Result of a handler: the state it leaves, and the exception it threw, if any. -/
structure Outcome where
  state : State
  error : Option JSError
deriving DecidableEq, Repr

/-- The state after the module's initializations: `requests = {}`, `tabs = {}`,
one `_stripMetadata` listener registered, `showIconBadge` not yet read. -/
def initialState : State where
  tabs := []
  requests := []
  requestsPrototype := none
  showIconBadge := none
  amountInjected := none
  whitelistedDomains := []
  storedAmountInjected := none
  storedWhitelistedDomains := []
  pendingReads := []
  headerListeners := 1
  log := []

/-- The key `injection.source + injection.path + injection.version`. -/
def injectionIdentifier (injection : Injection) : String :=
  injection.source ++ injection.path ++ injection.version

/-- The badge command of `registerInjection` (lines 45-61). -/
def badgeCommands (showIconBadge : Option Bool) (tabIdentifier : Int)
    (injectionCount : Nat) : List Command :=
  if showIconBadge = some true then
    if injectionCount > 0 then
      [Command.setBadgeText tabIdentifier (Nat.repr injectionCount)]
    else
      [Command.setBadgeText tabIdentifier ""]
  else
    []

/-- The number of low bits a double cannot keep of a natural number `a`: the least
`e` from the given one on with `a / 2 ^ e < 2 ^ 53`. -/
def droppedBits : Nat → Nat → Nat → Nat
  | 0, _, e => e
  | fuel + 1, a, e => if a / 2 ^ e < 2 ^ 53 then e else droppedBits fuel a (e + 1)

/-- The double nearest to an integer, ties to the even significand (IEEE 754
round-to-nearest-even, below the overflow threshold 2^1024). Integers up to 2^53
in absolute value are doubles themselves. -/
def roundToDouble (x : Int) : Int :=
  if -(2 ^ 53 : Int) ≤ x ∧ x ≤ 2 ^ 53 then
    x
  else
    let a := x.natAbs
    let e := droppedBits 1024 a 0
    let q := a / 2 ^ e
    let r := a % 2 ^ e
    let half := 2 ^ (e - 1)
    let q' := if r < half then q else if half < r then q + 1
      else if q % 2 = 0 then q else q + 1
    if 0 ≤ x then ((q' * 2 ^ e : Nat) : Int) else -((q' * 2 ^ e : Nat) : Int)

/-- The increment `++x` of a double that holds the integer `c`. -/
def jsIncrement (c : Int) : Int :=
  roundToDouble (c + 1)

/-- The counter update of `registerInjection` (lines 63-79). -/
def countInjection (s : State) : State :=
  match s.amountInjected with
  | none =>
    { s with
      pendingReads := s.pendingReads ++ [s.storedAmountInjected]
      log := s.log ++ [Command.storageGetAmountInjected] }
  | some c =>
    { s with
      amountInjected := some (jsIncrement c)
      storedAmountInjected := some (jsIncrement c)
      log := s.log ++ [Command.storageSetAmountInjected (some (jsIncrement c))] }

/-- The badge text of `registerInjection` (lines 47-60): the decimal size, or the
empty text for size 0. -/
def badgeText (injectionCount : Nat) : String :=
  if injectionCount > 0 then Nat.repr injectionCount else ""

/-- Source function `stateManager.registerInjection` (lines 35-80), called with an
integer tab identifier and an injection object. -/
def registerInjection (s : State) (tabIdentifier : Int) (injection : Injection) : Outcome :=
  match JSObject.get? s.tabs tabIdentifier with
  | none => { state := s, error := some JSError.typeError }
  | some registeredTab =>
    let injections :=
      JSObject.assign registeredTab.injections (injectionIdentifier injection) injection
    let injectionCount := (JSObject.keys injections).length
    let s1 : State :=
      { s with
        tabs := JSObject.set s.tabs tabIdentifier { registeredTab with injections := injections }
        log := s.log ++ badgeCommands s.showIconBadge tabIdentifier injectionCount }
    { state := countInjection s1, error := none }

/-- Consecutive calls `registerInjection(tabIdentifier, injection)`, one per list
entry, stopping at the first call that throws. -/
def registerAll (s : State) (tabIdentifier : Int) : List Injection → Outcome
  | [] => { state := s, error := none }
  | injection :: rest =>
    let o := registerInjection s tabIdentifier injection
    match o.error with
    | some e => { state := o.state, error := some e }
    | none => registerAll o.state tabIdentifier rest

/-- A browser tab as the host delivers it; only `tab.id` is read. -/
structure Tab where
  id : Int
deriving DecidableEq, Repr

/-- Source function `stateManager._createTab` (lines 108-127). -/
def _createTab (s : State) (tab : Tab) : State :=
  let tabIdentifier := tab.id
  { s with
    tabs := JSObject.set s.tabs tabIdentifier { injections := [] }
    log := s.log ++ [Command.addRequestListener tabIdentifier] }

/-- Source function `stateManager._removeTab` (lines 129-131). -/
def _removeTab (s : State) (tabIdentifier : Int) : State :=
  { s with tabs := JSObject.delete s.tabs tabIdentifier }

/-- The `details` of a committed navigation; only `tabId` and `frameId` are read. -/
structure NavigationDetails where
  tabId : Int
  frameId : Int
deriving DecidableEq, Repr

/-- Source function `stateManager._updateTab` (lines 133-155). -/
def _updateTab (s : State) (details : NavigationDetails) : State :=
  let tabIdentifier := details.tabId
  let frameIdentifier := details.frameId
  if tabIdentifier = -1 ∨ frameIdentifier ≠ 0 then
    s
  else
    let s1 : State :=
      if s.showIconBadge = some true then
        { s with log := s.log ++ [Command.setBadgeText tabIdentifier ""] }
      else
        s
    match JSObject.get? s1.tabs tabIdentifier with
    | some registeredTab =>
      { s1 with
        tabs := JSObject.set s1.tabs tabIdentifier { registeredTab with injections := [] } }
    | none => s1

/-- An outgoing request header; only `name` is read. -/
structure HttpHeader where
  name : String
  value : String
deriving DecidableEq, Repr

/-- The loop of `_stripMetadata` (lines 159-166) from the loop test with index `i`
onwards. A removal runs `splice(i--, 1)` and then the loop's `++i`. -/
def stripLoop (requestHeaders : List HttpHeader) (i : Nat) : List HttpHeader :=
  if h : i < requestHeaders.length then
    if requestHeaders[i].name = "Origin" then
      stripLoop (requestHeaders.eraseIdx i) (((i : Int) - 1) + 1).toNat
    else if requestHeaders[i].name = "Referer" then
      stripLoop (requestHeaders.eraseIdx i) (((i : Int) - 1) + 1).toNat
    else
      stripLoop requestHeaders (i + 1)
  else
    requestHeaders
termination_by requestHeaders.length - i
decreasing_by
  all_goals simp_wf
  all_goals (try rw [List.length_eraseIdx, if_pos h])
  all_goals omega

/-- Source function `stateManager._stripMetadata` (lines 157-171): the
`requestHeaders` of the returned object. -/
def _stripMetadata (requestHeaders : List HttpHeader) : List HttpHeader :=
  stripLoop requestHeaders 0

/-- What the read `stateManager.requests[requestId]` yields. -/
inductive RequestLookup where
  /-- The value `undefined`, or another falsy value. -/
  | absent
  /-- A record `{tabIdentifier, targetDetails}`. -/
  | record (knownRequest : PendingRequest)
  /-- A truthy value that is not a record: its `tabIdentifier` and `targetDetails`
  are `undefined`. -/
  | inherited
deriving DecidableEq, Repr

/-- What the prototype chain of `stateManager.requests` yields for a name that is
not an own property. With the prototype replaced by a record `r`, the names
`tabIdentifier` and `targetDetails` yield the fields of `r` (a number, falsy when
0, and an injection object) and `__proto__` yields `r` itself; the members of
`Object.prototype` are reached in either case. -/
def inheritedRequest (s : State) (requestId : String) : RequestLookup :=
  match s.requestsPrototype with
  | some r =>
    if requestId = "__proto__" then RequestLookup.record r
    else if requestId = "tabIdentifier" then
      if r.tabIdentifier = 0 then RequestLookup.absent else RequestLookup.inherited
    else if requestId = "targetDetails" then RequestLookup.inherited
    else if requestId ∈ JSObject.objectPrototypeNames then RequestLookup.inherited
    else RequestLookup.absent
  | none =>
    if requestId ∈ JSObject.objectPrototypeNames then RequestLookup.inherited
    else RequestLookup.absent

/-- The read `stateManager.requests[requestId]`: an own record, else what the
prototype chain yields. -/
def lookupRequest (s : State) (requestId : String) : RequestLookup :=
  match JSObject.get? s.requests requestId with
  | some knownRequest => RequestLookup.record knownRequest
  | none => inheritedRequest s requestId

/-- The `onErrorOccurred` listener (lines 251-257): a truthy
`stateManager.requests[requestId]` leads to the `delete`, which removes an own
property only. -/
def onErrorOccurred (s : State) (requestId : String) : State :=
  match lookupRequest s requestId with
  | RequestLookup.absent => s
  | RequestLookup.record _ => { s with requests := JSObject.delete s.requests requestId }
  | RequestLookup.inherited => { s with requests := JSObject.delete s.requests requestId }

/-- The `onBeforeRedirect` listener (lines 259-269). An exception thrown by
`registerInjection` leaves the listener before the `delete`. A truthy value that
is not a record gives `registerInjection(undefined, undefined)`, which throws on
line 39 when it reads `injection.source`, before any write. -/
def onBeforeRedirect (s : State) (requestId : String) : Outcome :=
  match lookupRequest s requestId with
  | RequestLookup.record knownRequest =>
    let o := registerInjection s knownRequest.tabIdentifier knownRequest.targetDetails
    match o.error with
    | some e => { state := o.state, error := some e }
    | none =>
      { state := { o.state with requests := JSObject.delete o.state.requests requestId }
        error := none }
  | RequestLookup.inherited => { state := s, error := some JSError.typeError }
  | RequestLookup.absent => { state := s, error := none }

/-- Modelled from the spec: the interceptor's store of a Pending Request Record
(`stateManager.requests[requestId] = {tabIdentifier, targetDetails}`); the
interceptor is not part of this source file. The name `__proto__` is the inherited
accessor: the record becomes the prototype and no own property is added. -/
def enterPending (s : State) (requestId : String) (tabIdentifier : Int)
    (targetDetails : Injection) : State :=
  if requestId = "__proto__" then
    { s with
      requestsPrototype :=
        some { tabIdentifier := tabIdentifier, targetDetails := targetDetails } }
  else
    { s with
      requests := JSObject.set s.requests requestId
        { tabIdentifier := tabIdentifier, targetDetails := targetDetails } }

/-- An injection of jQuery 3.3.1, used in the worked examples. -/
def jquery : Injection where
  source := "ajax.googleapis.com"
  path := "jquery/3.3.1/jquery.min.js"
  version := "3.3.1"

/-- The state after start-up with the badge enabled, the lifetime counter loaded
with 41, and tab 7 created. -/
def tabSevenState : State :=
  _createTab
    { initialState with
      showIconBadge := some true
      amountInjected := some 41
      storedAmountInjected := some 41 }
    { id := 7 }

/-- The `storage.local.set` commands for `amountInjected` in a log. -/
def amountWrites (log : List Command) : List (Option Int) :=
  log.filterMap fun c =>
    match c with
    | Command.storageSetAmountInjected v => some v
    | _ => none

/-- The `setBadgeText` commands in a log. -/
def badgeWrites (log : List Command) : List (Int × String) :=
  log.filterMap fun c =>
    match c with
    | Command.setBadgeText t text => some (t, text)
    | _ => none

/-- The read callback of `registerInjection` (lines 65-72), run for the oldest
queued read: `items.amountInjected` is the value read when the read was issued;
`++` on a value that is not a number gives `NaN`. -/
def amountInjectedCallback (s : State) : State :=
  match s.pendingReads with
  | [] => s
  | items :: rest =>
    let amountInjected := items.map jsIncrement
    { s with
      pendingReads := rest
      amountInjected := amountInjected
      storedAmountInjected := amountInjected
      log := s.log ++ [Command.storageSetAmountInjected amountInjected] }

/-- Source function `stateManager.addDomainToWhitelist` (lines 82-91): the body of
the promise, which runs at once. -/
def addDomainToWhitelist (s : State) (domain : String) : State :=
  let whitelistedDomains := JSObject.assign s.whitelistedDomains domain true
  { s with
    whitelistedDomains := whitelistedDomains
    storedWhitelistedDomains := whitelistedDomains
    log := s.log ++ [Command.storageSetWhitelistedDomains whitelistedDomains] }

/-- Source function `stateManager.deleteDomainFromWhitelist` (lines 93-102): the
body of the promise, which runs at once. -/
def deleteDomainFromWhitelist (s : State) (domain : String) : State :=
  let whitelistedDomains := JSObject.delete s.whitelistedDomains domain
  { s with
    whitelistedDomains := whitelistedDomains
    storedWhitelistedDomains := whitelistedDomains
    log := s.log ++ [Command.storageSetWhitelistedDomains whitelistedDomains] }

/-- A call of one of the two whitelist functions. -/
inductive WhitelistCall where
  /-- A call `addDomainToWhitelist(domain)`. -/
  | add (domain : String)
  /-- A call `deleteDomainFromWhitelist(domain)`. -/
  | remove (domain : String)
deriving DecidableEq, Repr

/-- One whitelist call applied to a state. -/
def applyWhitelistCall (s : State) : WhitelistCall → State
  | WhitelistCall.add domain => addDomainToWhitelist s domain
  | WhitelistCall.remove domain => deleteDomainFromWhitelist s domain

/-- The `storage.local.set` commands for `whitelistedDomains` in a log. -/
def whitelistWrites (log : List Command) : List (List (String × Bool)) :=
  log.filterMap fun c =>
    match c with
    | Command.storageSetWhitelistedDomains v => some v
    | _ => none

/-- Source function `stateManager._removeIconBadgeFromTab` (lines 206-212). -/
def _removeIconBadgeFromTab (s : State) (tab : Tab) : State :=
  { s with log := s.log ++ [Command.setBadgeText tab.id ""] }

/-- The callback of `chrome.tabs.query` in `_handleStorageChanged` (lines 181-183),
run with the open tabs the host delivers: `tabs.forEach(_removeIconBadgeFromTab)`. -/
def tabsQueryCallback (s : State) (tabs : List Tab) : State :=
  tabs.foldl _removeIconBadgeFromTab s

/-- An entry of the `changes` object of `storage.onChanged`; only `newValue` is
read, `none` is `undefined`. -/
structure StorageChange where
  newValue : Option Bool
deriving DecidableEq, Repr

/-- The `changes` object of `storage.onChanged`; a field is `none` when the key is
not `in changes`. -/
structure StorageChanges where
  showIconBadge : Option StorageChange
  stripMetadata : Option StorageChange
deriving DecidableEq, Repr

/-- The `showIconBadge` part of `_handleStorageChanged` (lines 175-185). The query
callback runs later, see `tabsQueryCallback`. -/
def handleShowIconBadge (s : State) (changes : StorageChanges) : State :=
  match changes.showIconBadge with
  | some change =>
    let s1 : State := { s with showIconBadge := change.newValue }
    if change.newValue ≠ some true then
      { s1 with log := s1.log ++ [Command.queryTabs] }
    else
      s1
  | none => s

/-- The `stripMetadata` part of `_handleStorageChanged` (lines 187-203). The host
keeps a table of listener registrations: `removeListener` drops one registration
of `_stripMetadata` if there is one, `addListener` adds one. -/
def handleStripMetadata (s : State) (changes : StorageChanges) : State :=
  match changes.stripMetadata with
  | some change =>
    let s1 : State :=
      { s with
        headerListeners := s.headerListeners - 1
        log := s.log ++ [Command.removeHeaderListener] }
    if change.newValue ≠ some false then
      { s1 with
        headerListeners := s1.headerListeners + 1
        log := s1.log ++ [Command.addHeaderListener] }
    else
      s1
  | none => s

/-- Source function `stateManager._handleStorageChanged` (lines 173-204). -/
def _handleStorageChanged (s : State) (changes : StorageChanges) : State :=
  handleStripMetadata (handleShowIconBadge s changes) changes

/-- JavaScript `a || b` on values that are a boolean or `undefined`. -/
def jsOr (a b : Option Bool) : Option Bool :=
  if a = some true then a else b

/-- The start-up read callback of `showIconBadge` (lines 236-238):
`stateManager.showIconBadge = items.showIconBadge || true`. -/
def loadShowIconBadge (s : State) (items : Option Bool) : State :=
  { s with showIconBadge := jsOr items (some true) }

/-- The number of `chrome.tabs.query` commands in a log. -/
def tabQueries (log : List Command) : Nat :=
  log.count Command.queryTabs

/-- The size `Object.keys(injections).length` of the injection set of a tab, 0 for
an untracked tab. -/
def injectionCount (s : State) (tabIdentifier : Int) : Nat :=
  match JSObject.get? s.tabs tabIdentifier with
  | some registeredTab => (JSObject.keys registeredTab.injections).length
  | none => 0

/-- The state after start-up with the lifetime counter not yet loaded, 41 stored,
and tab 7 created. -/
def unloadedState : State :=
  _createTab
    { initialState with
      showIconBadge := some true
      storedAmountInjected := some 41 }
    { id := 7 }

end stateManager

/-! Dictionary lemmas -/

namespace JSObject

variable {κ α : Type} [DecidableEq κ]

theorem get?_set_self (obj : List (κ × α)) (k : κ) (v : α) :
    get? (set obj k v) k = some v := by
  induction obj with
  | nil => simp [set, get?]
  | cons p rest ih =>
    obtain ⟨k', v'⟩ := p
    by_cases hk : k' = k
    · simp [set, get?, hk]
    · simp [set, get?, hk, ih]

theorem get?_set_ne (obj : List (κ × α)) (k k' : κ) (v : α) (h : k ≠ k') :
    get? (set obj k v) k' = get? obj k' := by
  induction obj with
  | nil => simp [set, get?, h]
  | cons p rest ih =>
    obtain ⟨k₀, v₀⟩ := p
    by_cases hk : k₀ = k
    · subst hk
      simp [set, get?, h]
    · by_cases hk' : k₀ = k'
      · subst hk'
        simp [set, get?, hk]
      · simp [set, get?, hk, hk', ih]

theorem get?_delete_self (obj : List (κ × α)) (k : κ) :
    get? (delete obj k) k = none := by
  induction obj with
  | nil => simp [delete, get?]
  | cons p rest ih =>
    obtain ⟨k₀, v₀⟩ := p
    by_cases hk : k₀ = k
    · simpa [delete, hk] using ih
    · simp [delete, get?, hk, ih]

theorem get?_delete_ne (obj : List (κ × α)) (k k' : κ) (h : k ≠ k') :
    get? (delete obj k) k' = get? obj k' := by
  induction obj with
  | nil => simp [delete, get?]
  | cons p rest ih =>
    obtain ⟨k₀, v₀⟩ := p
    by_cases hk : k₀ = k
    · subst hk
      simp [delete, get?, h, ih]
    · by_cases hk' : k₀ = k'
      · subst hk'
        simp [delete, get?, hk]
      · simp [delete, get?, hk, hk', ih]

theorem keys_set_of_get?_some (obj : List (κ × α)) (k : κ) (v v₀ : α)
    (h : get? obj k = some v₀) : keys (set obj k v) = keys obj := by
  induction obj with
  | nil => simp [get?] at h
  | cons p rest ih =>
    obtain ⟨k₁, v₁⟩ := p
    by_cases hk : k₁ = k
    · simp [set, keys, hk]
    · have h' : get? rest k = some v₀ := by simpa [get?, hk] using h
      have := ih h'
      simp only [keys] at this
      simp [set, keys, hk, this]

theorem keys_set_of_get?_none (obj : List (κ × α)) (k : κ) (v : α)
    (h : get? obj k = none) : keys (set obj k v) = keys obj ++ [k] := by
  induction obj with
  | nil => simp [set, keys]
  | cons p rest ih =>
    obtain ⟨k₁, v₁⟩ := p
    by_cases hk : k₁ = k
    · simp [get?, hk] at h
    · have h' : get? rest k = none := by simpa [get?, hk] using h
      have := ih h'
      simp only [keys] at this
      simp [set, keys, hk, this]

theorem length_set_pos (obj : List (κ × α)) (k : κ) (v : α) :
    0 < (keys (set obj k v)).length := by
  cases obj with
  | nil => simp [set, keys]
  | cons p rest =>
    obtain ⟨k₁, v₁⟩ := p
    by_cases hk : k₁ = k <;> simp [set, keys, hk]

theorem delete_of_absent (obj : List (κ × α)) (k : κ) (h : get? obj k = none) :
    delete obj k = obj := by
  induction obj with
  | nil => simp [delete]
  | cons p rest ih =>
    obtain ⟨k₁, v₁⟩ := p
    by_cases hk : k₁ = k
    · simp [get?, hk] at h
    · have h' : get? rest k = none := by simpa [get?, hk] using h
      simp [delete, hk, ih h']

theorem assign_of_ne {α : Type} (obj : List (String × α)) (k : String) (v : α)
    (h : k ≠ "__proto__") : assign obj k v = set obj k v := by
  unfold assign; rw [if_neg h]

theorem assign_proto {α : Type} (obj : List (String × α)) (v : α) :
    assign obj "__proto__" v = obj := by
  unfold assign; rw [if_pos rfl]

theorem get?_assign_ne {α : Type} (obj : List (String × α)) (k k' : String) (v : α)
    (h : k ≠ k') : get? (assign obj k v) k' = get? obj k' := by
  unfold assign
  split
  · rfl
  · exact get?_set_ne obj k k' v h

end JSObject

namespace stateManager

/-! `registerInjection` -/

theorem jsIncrement_of_safe (c : Int) (hlow : -(2 ^ 53 : Int) ≤ c) (hhigh : c < 2 ^ 53) :
    jsIncrement c = c + 1 := by
  unfold jsIncrement roundToDouble
  rw [if_pos ⟨by omega, by omega⟩]

theorem badgeCommands_eq (b : Option Bool) (t : Int) (n : Nat) :
    badgeCommands b t n =
      if b = some true then [Command.setBadgeText t (badgeText n)] else [] := by
  unfold badgeCommands badgeText
  split
  · split <;> rfl
  · rfl

theorem countInjection_tabs (s : State) : (countInjection s).tabs = s.tabs := by
  unfold countInjection; split <;> rfl

theorem countInjection_requests (s : State) : (countInjection s).requests = s.requests := by
  unfold countInjection; split <;> rfl

theorem countInjection_showIconBadge (s : State) :
    (countInjection s).showIconBadge = s.showIconBadge := by
  unfold countInjection; split <;> rfl

theorem countInjection_of_loaded (s : State) (c : Int) (h : s.amountInjected = some c) :
    countInjection s =
      { s with
        amountInjected := some (jsIncrement c)
        storedAmountInjected := some (jsIncrement c)
        log := s.log ++ [Command.storageSetAmountInjected (some (jsIncrement c))] } := by
  unfold countInjection; rw [h]

theorem registerInjection_of_tracked (s : State) (tabIdentifier : Int)
    (registeredTab : TabRecord) (injection : Injection)
    (h : JSObject.get? s.tabs tabIdentifier = some registeredTab) :
    registerInjection s tabIdentifier injection =
      { state := countInjection
          { s with
            tabs := JSObject.set s.tabs tabIdentifier
              { registeredTab with
                injections := JSObject.assign registeredTab.injections
                  (injectionIdentifier injection) injection }
            log := s.log ++ badgeCommands s.showIconBadge tabIdentifier
              (JSObject.keys (JSObject.assign registeredTab.injections
                (injectionIdentifier injection) injection)).length }
        error := none } := by
  unfold registerInjection; rw [h]

theorem registerInjection_of_untracked (s : State) (tabIdentifier : Int)
    (injection : Injection) (h : JSObject.get? s.tabs tabIdentifier = none) :
    registerInjection s tabIdentifier injection =
      { state := s, error := some JSError.typeError } := by
  unfold registerInjection; rw [h]

theorem registerInjection_tab (s : State) (tabIdentifier : Int)
    (registeredTab : TabRecord) (injection : Injection)
    (h : JSObject.get? s.tabs tabIdentifier = some registeredTab) :
    JSObject.get? (registerInjection s tabIdentifier injection).state.tabs tabIdentifier =
      some { registeredTab with
        injections := JSObject.assign registeredTab.injections
          (injectionIdentifier injection) injection } := by
  rw [registerInjection_of_tracked s tabIdentifier registeredTab injection h]
  simp [countInjection_tabs, JSObject.get?_set_self]

theorem registerInjection_error_none (s : State) (tabIdentifier : Int)
    (registeredTab : TabRecord) (injection : Injection)
    (h : JSObject.get? s.tabs tabIdentifier = some registeredTab) :
    (registerInjection s tabIdentifier injection).error = none := by
  rw [registerInjection_of_tracked s tabIdentifier registeredTab injection h]

/-- Repeating a registration whose entry is the only one in the tab keeps it the only one. -/
theorem registerAll_replicate_single (n : Nat) (s : State) (tabIdentifier : Int)
    (registeredTab : TabRecord) (injection : Injection)
    (h : JSObject.get? s.tabs tabIdentifier = some registeredTab)
    (hkey : injectionIdentifier injection ≠ "__proto__")
    (hinj : registeredTab.injections = [(injectionIdentifier injection, injection)]) :
    (registerAll s tabIdentifier (List.replicate n injection)).error = none ∧
    ∃ tab', JSObject.get? (registerAll s tabIdentifier
        (List.replicate n injection)).state.tabs tabIdentifier = some tab' ∧
      tab'.injections = [(injectionIdentifier injection, injection)] := by
  induction n generalizing s registeredTab with
  | zero => exact ⟨rfl, registeredTab, h, hinj⟩
  | succ m ih =>
    have herr := registerInjection_error_none s tabIdentifier registeredTab injection h
    have htab := registerInjection_tab s tabIdentifier registeredTab injection h
    simp only [List.replicate_succ, registerAll, herr]
    exact ih _ _ htab (by simp [hinj, JSObject.assign_of_ne _ _ _ hkey, JSObject.set])

/-- Claim C1 as stated fails: it is not true that for every injection the size is 1
after n >= 1 registrations into an empty tracked tab. For the injection with source
`__proto__` and empty path and version the key is `__proto__`, the write goes to the
inherited accessor, and the injection set still has no own key: the size is 0. -/
theorem repeat_size_proto_key_zero :
    ¬ ∀ (s : State) (tabIdentifier : Int) (registeredTab : TabRecord)
      (injection : Injection) (n : Nat),
      JSObject.get? s.tabs tabIdentifier = some registeredTab →
      registeredTab.injections = [] → 1 ≤ n →
      injectionCount (registerAll s tabIdentifier
        (List.replicate n injection)).state tabIdentifier = 1 := by
  intro h
  have h2 := h tabSevenState 7 { injections := [] }
    { source := "__proto__", path := "", version := "" } 1 (by decide) rfl (by decide)
  revert h2
  decide

/-- Claim C1, amended: on a tracked tab whose injection set is empty, after n >= 1
consecutive calls of registerInjection with the same injection whose key
source + path + version is not `__proto__`, no call throws and the tab's injection
set holds exactly that one entry, so its size is 1. -/
theorem registerInjection_repeat_size_one (s : State) (tabIdentifier : Int)
    (registeredTab : TabRecord) (injection : Injection) (n : Nat)
    (htab : JSObject.get? s.tabs tabIdentifier = some registeredTab)
    (hempty : registeredTab.injections = [])
    (hkey : injectionIdentifier injection ≠ "__proto__")
    (hn : 1 ≤ n) :
    (registerAll s tabIdentifier (List.replicate n injection)).error = none ∧
    ∃ tab', JSObject.get? (registerAll s tabIdentifier
        (List.replicate n injection)).state.tabs tabIdentifier = some tab' ∧
      tab'.injections = [(injectionIdentifier injection, injection)] ∧
      (JSObject.keys tab'.injections).length = 1 := by
  obtain ⟨m, rfl⟩ : ∃ m, n = m + 1 := ⟨n - 1, by omega⟩
  have herr := registerInjection_error_none s tabIdentifier registeredTab injection htab
  have htab' := registerInjection_tab s tabIdentifier registeredTab injection htab
  simp only [List.replicate_succ, registerAll, herr]
  obtain ⟨h1, tab', h2, h3⟩ := registerAll_replicate_single m _ tabIdentifier _ injection htab'
    hkey (by simp [hempty, JSObject.assign_of_ne _ _ _ hkey, JSObject.set])
  exact ⟨h1, tab', h2, h3, by simp [h3, JSObject.keys]⟩

/-- Witness for C1, amended: three registrations of jQuery in the freshly created tab 7. -/
theorem registerInjection_repeat_size_one_witness :
    (registerAll tabSevenState 7 (List.replicate 3 jquery)).error = none ∧
    ∃ tab', JSObject.get? (registerAll tabSevenState 7
        (List.replicate 3 jquery)).state.tabs 7 = some tab' ∧
      tab'.injections = [(injectionIdentifier jquery, jquery)] ∧
      (JSObject.keys tab'.injections).length = 1 :=
  registerInjection_repeat_size_one tabSevenState 7 { injections := [] } jquery 3
    (by decide) rfl (by decide) (by decide)

theorem amountWrites_append (l₁ l₂ : List Command) :
    amountWrites (l₁ ++ l₂) = amountWrites l₁ ++ amountWrites l₂ := by
  simp [amountWrites, List.filterMap_append]

theorem amountWrites_badgeCommands (b : Option Bool) (t : Int) (n : Nat) :
    amountWrites (badgeCommands b t n) = [] := by
  unfold badgeCommands
  split
  · split <;> simp [amountWrites]
  · simp [amountWrites]

theorem registerInjection_amountInjected (s : State) (tabIdentifier : Int)
    (registeredTab : TabRecord) (injection : Injection) (c : Int)
    (htab : JSObject.get? s.tabs tabIdentifier = some registeredTab)
    (hc : s.amountInjected = some c) :
    (registerInjection s tabIdentifier injection).state.amountInjected =
      some (jsIncrement c) := by
  rw [registerInjection_of_tracked s tabIdentifier registeredTab injection htab]
  simp [countInjection, hc]

/-- With the counter loaded with an integer that stays within 2^53, any list of
registrations on a tracked tab adds its length. -/
theorem registerAll_amountInjected (injections : List Injection) (s : State)
    (tabIdentifier : Int) (registeredTab : TabRecord) (c : Int)
    (htab : JSObject.get? s.tabs tabIdentifier = some registeredTab)
    (hc : s.amountInjected = some c)
    (hlow : -(2 ^ 53 : Int) ≤ c) (hhigh : c + injections.length ≤ 2 ^ 53) :
    (registerAll s tabIdentifier injections).error = none ∧
    (registerAll s tabIdentifier injections).state.amountInjected =
      some (c + injections.length) := by
  induction injections generalizing s registeredTab c with
  | nil => simp [registerAll, hc]
  | cons injection rest ih =>
    have herr := registerInjection_error_none s tabIdentifier registeredTab injection htab
    have htab' := registerInjection_tab s tabIdentifier registeredTab injection htab
    have hc' := registerInjection_amountInjected s tabIdentifier registeredTab injection c htab hc
    rw [List.length_cons] at hhigh
    push_cast at hhigh
    rw [jsIncrement_of_safe c hlow (by omega)] at hc'
    simp only [registerAll, herr]
    obtain ⟨h1, h2⟩ := ih _ _ (c + 1) htab' hc' (by omega) (by omega)
    refine ⟨h1, ?_⟩
    rw [h2, List.length_cons]
    congr 1
    push_cast
    ring

/-- Claim C2 as stated fails: the counter is a double, and it is not true that one
call turns every loaded integer c into c + 1. With c = 2^53 the increment rounds
back to 2^53, so the in-memory counter and the value written stay 2^53; below the
range, with c = -2^53 - 2, the increment rounds to -2^53, not to c + 1. -/
theorem counter_stuck_at_two_pow_53 :
    (¬ ∀ (s : State) (tabIdentifier : Int) (registeredTab : TabRecord)
      (injection : Injection) (c : Int),
      JSObject.get? s.tabs tabIdentifier = some registeredTab →
      s.amountInjected = some c →
      (registerInjection s tabIdentifier injection).state.amountInjected = some (c + 1)) ∧
    (registerInjection { tabSevenState with amountInjected := some (2 ^ 53) } 7
      jquery).state.amountInjected = some (2 ^ 53) ∧
    amountWrites (registerInjection { tabSevenState with amountInjected := some (2 ^ 53) } 7
      jquery).state.log = [some (2 ^ 53)] ∧
    (registerInjection { tabSevenState with amountInjected := some (-(2 ^ 53) - 2) } 7
      jquery).state.amountInjected = some (-(2 ^ 53)) := by
  refine ⟨?_, by decide, by decide, by decide⟩
  intro h
  have h2 := h { tabSevenState with amountInjected := some (2 ^ 53) } 7 { injections := [] }
    jquery (2 ^ 53) (by decide) rfl
  revert h2
  decide

/-- Claim C2, amended: on a tracked tab with the lifetime counter loaded with an
integer c, -2^53 <= c < 2^53, one call of registerInjection does not throw, sets the
in-memory counter to c + 1, stores c + 1 and issues exactly one storage write, of
amountInjected = c + 1, whatever the tab's injection set held before; any n
consecutive calls with c + n <= 2^53 leave the counter at c + n. -/
theorem registerInjection_counts_every_call (s : State) (tabIdentifier : Int)
    (registeredTab : TabRecord) (injection : Injection) (c : Int)
    (htab : JSObject.get? s.tabs tabIdentifier = some registeredTab)
    (hc : s.amountInjected = some c)
    (hlow : -(2 ^ 53 : Int) ≤ c) (hhigh : c < 2 ^ 53) :
    (registerInjection s tabIdentifier injection).error = none ∧
    (registerInjection s tabIdentifier injection).state.amountInjected = some (c + 1) ∧
    (registerInjection s tabIdentifier injection).state.storedAmountInjected = some (c + 1) ∧
    amountWrites (registerInjection s tabIdentifier injection).state.log =
      amountWrites s.log ++ [some (c + 1)] ∧
    (∃ size : Nat, (registerInjection s tabIdentifier injection).state.log =
      s.log ++ badgeCommands s.showIconBadge tabIdentifier size ++
        [Command.storageSetAmountInjected (some (c + 1))]) ∧
    ∀ injections : List Injection, c + injections.length ≤ 2 ^ 53 →
      (registerAll s tabIdentifier injections).error = none ∧
      (registerAll s tabIdentifier injections).state.amountInjected =
        some (c + injections.length) := by
  have hinc := jsIncrement_of_safe c hlow hhigh
  refine ⟨registerInjection_error_none s tabIdentifier registeredTab injection htab,
    ?_, ?_, ?_, ?_, fun injections hbound =>
      registerAll_amountInjected injections s tabIdentifier registeredTab c htab hc
        hlow hbound⟩
  · rw [registerInjection_amountInjected s tabIdentifier registeredTab injection c htab hc,
      hinc]
  · rw [registerInjection_of_tracked s tabIdentifier registeredTab injection htab]
    simp [countInjection, hc, hinc]
  · rw [registerInjection_of_tracked s tabIdentifier registeredTab injection htab]
    simp [countInjection, hc, hinc, amountWrites_append, amountWrites_badgeCommands]
    simp [amountWrites]
  · refine ⟨(JSObject.keys (JSObject.assign registeredTab.injections
      (injectionIdentifier injection) injection)).length, ?_⟩
    rw [registerInjection_of_tracked s tabIdentifier registeredTab injection htab]
    simp only [countInjection, hc, hinc]

/-- Witness for C2, amended: tab 7 with the counter at 41; jQuery registered. -/
theorem registerInjection_counts_every_call_witness :
    (registerInjection tabSevenState 7 jquery).error = none ∧
    (registerInjection tabSevenState 7 jquery).state.amountInjected = some (41 + 1) ∧
    (registerInjection tabSevenState 7 jquery).state.storedAmountInjected = some (41 + 1) ∧
    amountWrites (registerInjection tabSevenState 7 jquery).state.log =
      amountWrites tabSevenState.log ++ [some (41 + 1)] ∧
    (∃ size : Nat, (registerInjection tabSevenState 7 jquery).state.log =
      tabSevenState.log ++ badgeCommands tabSevenState.showIconBadge 7 size ++
        [Command.storageSetAmountInjected (some (41 + 1))]) ∧
    ∀ injections : List Injection, (41 : Int) + injections.length ≤ 2 ^ 53 →
      (registerAll tabSevenState 7 injections).error = none ∧
      (registerAll tabSevenState 7 injections).state.amountInjected =
        some (41 + injections.length) :=
  registerInjection_counts_every_call tabSevenState 7 { injections := [] } jquery 41
    (by decide) (by decide) (by decide) (by decide)

/-- Claim C3: for a tab identifier with no tab record, registerInjection throws
(a TypeError, the Missing-Tab failure) and the state at the throw is the state
before the call: tab map, pending-request map, in-memory and stored counter are
unchanged and nothing is sent to the host. -/
theorem registerInjection_missing_tab (s : State) (tabIdentifier : Int)
    (injection : Injection) (h : JSObject.get? s.tabs tabIdentifier = none) :
    (registerInjection s tabIdentifier injection).error = some JSError.typeError ∧
    (registerInjection s tabIdentifier injection).state = s := by
  rw [registerInjection_of_untracked s tabIdentifier injection h]
  exact ⟨rfl, rfl⟩

/-- Witness for C3: tab 8 is not tracked in the state that tracks only tab 7. -/
theorem registerInjection_missing_tab_witness :
    (registerInjection tabSevenState 8 jquery).error = some JSError.typeError ∧
    (registerInjection tabSevenState 8 jquery).state = tabSevenState :=
  registerInjection_missing_tab tabSevenState 8 jquery (by decide)

/-! Request correlator -/

theorem registerInjection_requests (s : State) (tabIdentifier : Int) (injection : Injection) :
    (registerInjection s tabIdentifier injection).state.requests = s.requests := by
  unfold registerInjection
  split
  · rfl
  · simp [countInjection_requests]

theorem countInjection_requestsPrototype (s : State) :
    (countInjection s).requestsPrototype = s.requestsPrototype := by
  unfold countInjection; split <;> rfl

theorem registerInjection_requestsPrototype (s : State) (tabIdentifier : Int)
    (injection : Injection) :
    (registerInjection s tabIdentifier injection).state.requestsPrototype =
      s.requestsPrototype := by
  unfold registerInjection
  split
  · rfl
  · simp [countInjection_requestsPrototype]

theorem registerInjection_other_tab (s : State) (tabIdentifier other : Int)
    (injection : Injection) (hne : tabIdentifier ≠ other) :
    JSObject.get? (registerInjection s tabIdentifier injection).state.tabs other =
      JSObject.get? s.tabs other := by
  unfold registerInjection
  split
  · rfl
  · simp [countInjection_tabs, JSObject.get?_set_ne _ _ _ _ hne]

theorem lookupRequest_of_own (s : State) (requestId : String) (knownRequest : PendingRequest)
    (h : JSObject.get? s.requests requestId = some knownRequest) :
    lookupRequest s requestId = RequestLookup.record knownRequest := by
  unfold lookupRequest; rw [h]

theorem lookupRequest_of_not_own (s : State) (requestId : String)
    (h : JSObject.get? s.requests requestId = none) :
    lookupRequest s requestId = inheritedRequest s requestId := by
  unfold lookupRequest; rw [h]

theorem inheritedRequest_congr (s s' : State) (requestId : String)
    (h : s'.requestsPrototype = s.requestsPrototype) :
    inheritedRequest s' requestId = inheritedRequest s requestId := by
  unfold inheritedRequest; rw [h]

/-- Only the name `__proto__` can reach a record through the prototype chain. -/
theorem inheritedRequest_ne_record (s : State) (requestId : String)
    (h : requestId ≠ "__proto__") (r : PendingRequest) :
    inheritedRequest s requestId ≠ RequestLookup.record r := by
  unfold inheritedRequest
  cases s.requestsPrototype with
  | none => dsimp only; split <;> simp
  | some r₀ =>
    dsimp only
    rw [if_neg h]
    split
    · split <;> simp
    · split
      · simp
      · split <;> simp

theorem onBeforeRedirect_of_absent (s : State) (requestId : String)
    (h : lookupRequest s requestId = RequestLookup.absent) :
    onBeforeRedirect s requestId = { state := s, error := none } := by
  unfold onBeforeRedirect; rw [h]

theorem onBeforeRedirect_of_inherited (s : State) (requestId : String)
    (h : lookupRequest s requestId = RequestLookup.inherited) :
    onBeforeRedirect s requestId = { state := s, error := some JSError.typeError } := by
  unfold onBeforeRedirect; rw [h]

/-- A redirect event that finds no record leaves the state as it is. -/
theorem onBeforeRedirect_state_of_no_record (s : State) (requestId : String)
    (h : ∀ r : PendingRequest, lookupRequest s requestId ≠ RequestLookup.record r) :
    (onBeforeRedirect s requestId).state = s := by
  cases hl : lookupRequest s requestId with
  | absent => rw [onBeforeRedirect_of_absent s requestId hl]
  | inherited => rw [onBeforeRedirect_of_inherited s requestId hl]
  | record r => exact absurd hl (h r)

/-- Claim C4 as stated fails in two ways. First, it is not true that every pending
request on a tracked tab gets its targetDetails registered under its key and loses
its record: when the key of targetDetails is `__proto__` the write goes to the
inherited accessor and the tab's injection set stays empty. Second, for the request
identifier `__proto__` the record becomes the prototype of the request map: the
redirect registers the injection, the delete removes nothing, the record is still
found, and a second redirect registers again (the counter goes 41, 42, 43). -/
theorem redirect_fails_on_proto_names :
    (¬ ∀ (s : State) (requestId : String) (knownRequest : PendingRequest)
      (registeredTab : TabRecord),
      lookupRequest s requestId = RequestLookup.record knownRequest →
      JSObject.get? s.tabs knownRequest.tabIdentifier = some registeredTab →
      (∃ tab', JSObject.get? (onBeforeRedirect s requestId).state.tabs
          knownRequest.tabIdentifier = some tab' ∧
        JSObject.get? tab'.injections (injectionIdentifier knownRequest.targetDetails) =
          some knownRequest.targetDetails) ∧
      lookupRequest (onBeforeRedirect s requestId).state requestId =
        RequestLookup.absent) ∧
    injectionCount (onBeforeRedirect (enterPending tabSevenState "R" 7
      { source := "__proto__", path := "", version := "" }) "R").state 7 = 0 ∧
    lookupRequest (enterPending tabSevenState "__proto__" 7 jquery) "__proto__" =
      RequestLookup.record { tabIdentifier := 7, targetDetails := jquery } ∧
    lookupRequest (onBeforeRedirect (enterPending tabSevenState "__proto__" 7 jquery)
      "__proto__").state "__proto__" =
      RequestLookup.record { tabIdentifier := 7, targetDetails := jquery } ∧
    (onBeforeRedirect (enterPending tabSevenState "__proto__" 7 jquery)
      "__proto__").state.amountInjected = some 42 ∧
    (onBeforeRedirect (onBeforeRedirect (enterPending tabSevenState "__proto__" 7 jquery)
      "__proto__").state "__proto__").state.amountInjected = some 43 := by
  refine ⟨?_, by decide, by decide, by decide, by decide, by decide⟩
  intro h
  have h2 := h (enterPending tabSevenState "R" 7
      { source := "__proto__", path := "", version := "" }) "R"
    { tabIdentifier := 7, targetDetails := { source := "__proto__", path := "", version := "" } }
    { injections := [] } (by decide) (by decide)
  obtain ⟨⟨tab', h3, h4⟩, _⟩ := h2
  have h5 : JSObject.get? (onBeforeRedirect (enterPending tabSevenState "R" 7
      { source := "__proto__", path := "", version := "" }) "R").state.tabs 7 =
      some { injections := [] } := by decide
  have h6 : tab' = { injections := [] } := by
    have h7 := h3.symm.trans h5
    exact Option.some.inj h7
  rw [h6] at h4
  revert h4
  decide

/-- Claim C4, amended: when request R, other than `__proto__`, has its record among
the own entries of the request map, the record's tab is tracked, and the key
source + path + version of targetDetails is not `__proto__`, the redirect event for
R does not throw and leaves exactly the state of one registerInjection call for the
record's tab and targetDetails with the record for R deleted: the tab's injection
set is the old one with targetDetails written under its key, every other tab is
untouched, no record for R is left, and a second redirect event for R changes no
state; that second event raises no error when R names nothing on the prototype
chain of the request map. -/
theorem onBeforeRedirect_registers_once (s : State) (requestId : String)
    (knownRequest : PendingRequest) (registeredTab : TabRecord)
    (hreq : JSObject.get? s.requests requestId = some knownRequest)
    (htab : JSObject.get? s.tabs knownRequest.tabIdentifier = some registeredTab)
    (hkey : injectionIdentifier knownRequest.targetDetails ≠ "__proto__")
    (hid : requestId ≠ "__proto__") :
    (onBeforeRedirect s requestId).error = none ∧
    (onBeforeRedirect s requestId).state =
      { (registerInjection s knownRequest.tabIdentifier knownRequest.targetDetails).state with
        requests := JSObject.delete s.requests requestId } ∧
    JSObject.get? (onBeforeRedirect s requestId).state.tabs knownRequest.tabIdentifier =
      some { registeredTab with
        injections := JSObject.set registeredTab.injections
          (injectionIdentifier knownRequest.targetDetails) knownRequest.targetDetails } ∧
    (∀ other : Int, knownRequest.tabIdentifier ≠ other →
      JSObject.get? (onBeforeRedirect s requestId).state.tabs other =
        JSObject.get? s.tabs other) ∧
    JSObject.get? (onBeforeRedirect s requestId).state.requests requestId = none ∧
    (onBeforeRedirect (onBeforeRedirect s requestId).state requestId).state =
      (onBeforeRedirect s requestId).state ∧
    (inheritedRequest s requestId = RequestLookup.absent →
      onBeforeRedirect (onBeforeRedirect s requestId).state requestId =
        { state := (onBeforeRedirect s requestId).state, error := none }) := by
  have herr := registerInjection_error_none s knownRequest.tabIdentifier registeredTab
    knownRequest.targetDetails htab
  have hstate : onBeforeRedirect s requestId =
      { state :=
          { (registerInjection s knownRequest.tabIdentifier
              knownRequest.targetDetails).state with
            requests := JSObject.delete s.requests requestId }
        error := none } := by
    unfold onBeforeRedirect
    rw [lookupRequest_of_own s requestId knownRequest hreq]
    simp only [herr, registerInjection_requests]
  have hgone : JSObject.get? (onBeforeRedirect s requestId).state.requests requestId = none := by
    rw [hstate]
    exact JSObject.get?_delete_self s.requests requestId
  have hproto : (onBeforeRedirect s requestId).state.requestsPrototype =
      s.requestsPrototype := by
    rw [hstate]
    exact registerInjection_requestsPrototype s knownRequest.tabIdentifier
      knownRequest.targetDetails
  have hlookup : lookupRequest (onBeforeRedirect s requestId).state requestId =
      inheritedRequest s requestId := by
    rw [lookupRequest_of_not_own _ requestId hgone]
    exact inheritedRequest_congr s _ requestId hproto
  refine ⟨by rw [hstate], by rw [hstate], ?_, ?_, hgone, ?_, ?_⟩
  · rw [hstate]
    have := registerInjection_tab s knownRequest.tabIdentifier registeredTab
      knownRequest.targetDetails htab
    rw [JSObject.assign_of_ne _ _ _ hkey] at this
    exact this
  · intro other hne
    rw [hstate]
    exact registerInjection_other_tab s knownRequest.tabIdentifier other
      knownRequest.targetDetails hne
  · apply onBeforeRedirect_state_of_no_record
    intro r
    rw [hlookup]
    exact inheritedRequest_ne_record s requestId hid r
  · intro habsent
    exact onBeforeRedirect_of_absent _ requestId (by rw [hlookup, habsent])

/-- Witness for C4, amended: tab 7 created, the jQuery request R pending, then
redirected: the injection set of tab 7 has size 1, the badge text sent is "1", the
counter goes from 41 to 42. -/
theorem onBeforeRedirect_registers_once_witness :
    ((onBeforeRedirect (enterPending tabSevenState "R" 7 jquery) "R").error = none ∧
    (onBeforeRedirect (enterPending tabSevenState "R" 7 jquery) "R").state =
      { (registerInjection (enterPending tabSevenState "R" 7 jquery) 7 jquery).state with
        requests := JSObject.delete (enterPending tabSevenState "R" 7 jquery).requests "R" } ∧
    JSObject.get? (onBeforeRedirect (enterPending tabSevenState "R" 7 jquery) "R").state.tabs 7 =
      some { injections := JSObject.set [] (injectionIdentifier jquery) jquery } ∧
    (∀ other : Int, (7 : Int) ≠ other →
      JSObject.get? (onBeforeRedirect (enterPending tabSevenState "R" 7 jquery) "R").state.tabs
          other =
        JSObject.get? (enterPending tabSevenState "R" 7 jquery).tabs other) ∧
    JSObject.get? (onBeforeRedirect (enterPending tabSevenState "R" 7 jquery)
      "R").state.requests "R" = none ∧
    (onBeforeRedirect (onBeforeRedirect (enterPending tabSevenState "R" 7 jquery)
      "R").state "R").state =
      (onBeforeRedirect (enterPending tabSevenState "R" 7 jquery) "R").state ∧
    (inheritedRequest (enterPending tabSevenState "R" 7 jquery) "R" = RequestLookup.absent →
      onBeforeRedirect (onBeforeRedirect (enterPending tabSevenState "R" 7 jquery)
        "R").state "R" =
        { state := (onBeforeRedirect (enterPending tabSevenState "R" 7 jquery) "R").state
          error := none })) ∧
    inheritedRequest (enterPending tabSevenState "R" 7 jquery) "R" = RequestLookup.absent ∧
    (JSObject.get? (onBeforeRedirect (enterPending tabSevenState "R" 7 jquery)
      "R").state.tabs 7).map (fun tab => (JSObject.keys tab.injections).length) = some 1 ∧
    badgeWrites (onBeforeRedirect (enterPending tabSevenState "R" 7 jquery) "R").state.log =
      [(7, "1")] ∧
    (onBeforeRedirect (enterPending tabSevenState "R" 7 jquery) "R").state.amountInjected =
      some 42 ∧
    (onBeforeRedirect (enterPending tabSevenState "R" 7 jquery) "R").state.requests = [] :=
  ⟨onBeforeRedirect_registers_once (enterPending tabSevenState "R" 7 jquery) "R"
      { tabIdentifier := 7, targetDetails := jquery } { injections := [] }
      (by decide) (by decide) (by decide) (by decide),
    by decide, by decide, by decide, by decide, by decide⟩

theorem onErrorOccurred_of_known (s : State) (requestId : String)
    (knownRequest : PendingRequest)
    (h : JSObject.get? s.requests requestId = some knownRequest) :
    onErrorOccurred s requestId =
      { s with requests := JSObject.delete s.requests requestId } := by
  unfold onErrorOccurred; rw [lookupRequest_of_own s requestId knownRequest h]

/-- Claim C5: when request R is pending, the error event for R deletes the record
for R and changes nothing else: the tab map, the in-memory and stored counter and
the commands sent to the host are as before, and every other request keeps its
record. -/
theorem onErrorOccurred_drops_record (s : State) (requestId : String)
    (knownRequest : PendingRequest)
    (hreq : JSObject.get? s.requests requestId = some knownRequest) :
    JSObject.get? (onErrorOccurred s requestId).requests requestId = none ∧
    (onErrorOccurred s requestId).tabs = s.tabs ∧
    (onErrorOccurred s requestId).amountInjected = s.amountInjected ∧
    (onErrorOccurred s requestId).storedAmountInjected = s.storedAmountInjected ∧
    (onErrorOccurred s requestId).pendingReads = s.pendingReads ∧
    (onErrorOccurred s requestId).log = s.log ∧
    (onErrorOccurred s requestId) =
      { s with requests := JSObject.delete s.requests requestId } ∧
    ∀ other : String, requestId ≠ other →
      JSObject.get? (onErrorOccurred s requestId).requests other =
        JSObject.get? s.requests other := by
  rw [onErrorOccurred_of_known s requestId knownRequest hreq]
  refine ⟨JSObject.get?_delete_self _ _, rfl, rfl, rfl, rfl, rfl, rfl, ?_⟩
  intro other hne
  exact JSObject.get?_delete_ne _ _ _ hne

/-- Witness for C5: requests R and Q pending for tab 7, then the error event for R. -/
theorem onErrorOccurred_drops_record_witness :
    JSObject.get? (onErrorOccurred (enterPending (enterPending tabSevenState "R" 7 jquery)
      "Q" 7 jquery) "R").requests "R" = none ∧
    (onErrorOccurred (enterPending (enterPending tabSevenState "R" 7 jquery)
      "Q" 7 jquery) "R").tabs =
      (enterPending (enterPending tabSevenState "R" 7 jquery) "Q" 7 jquery).tabs ∧
    (onErrorOccurred (enterPending (enterPending tabSevenState "R" 7 jquery)
      "Q" 7 jquery) "R").amountInjected =
      (enterPending (enterPending tabSevenState "R" 7 jquery) "Q" 7 jquery).amountInjected ∧
    (onErrorOccurred (enterPending (enterPending tabSevenState "R" 7 jquery)
      "Q" 7 jquery) "R").storedAmountInjected =
      (enterPending (enterPending tabSevenState "R" 7 jquery)
        "Q" 7 jquery).storedAmountInjected ∧
    (onErrorOccurred (enterPending (enterPending tabSevenState "R" 7 jquery)
      "Q" 7 jquery) "R").pendingReads =
      (enterPending (enterPending tabSevenState "R" 7 jquery) "Q" 7 jquery).pendingReads ∧
    (onErrorOccurred (enterPending (enterPending tabSevenState "R" 7 jquery)
      "Q" 7 jquery) "R").log =
      (enterPending (enterPending tabSevenState "R" 7 jquery) "Q" 7 jquery).log ∧
    (onErrorOccurred (enterPending (enterPending tabSevenState "R" 7 jquery)
      "Q" 7 jquery) "R") =
      { (enterPending (enterPending tabSevenState "R" 7 jquery) "Q" 7 jquery) with
        requests := JSObject.delete
          (enterPending (enterPending tabSevenState "R" 7 jquery) "Q" 7 jquery).requests "R" } ∧
    ∀ other : String, "R" ≠ other →
      JSObject.get? (onErrorOccurred (enterPending (enterPending tabSevenState "R" 7 jquery)
        "Q" 7 jquery) "R").requests other =
        JSObject.get? (enterPending (enterPending tabSevenState "R" 7 jquery)
          "Q" 7 jquery).requests other :=
  onErrorOccurred_drops_record
    (enterPending (enterPending tabSevenState "R" 7 jquery) "Q" 7 jquery) "R"
    { tabIdentifier := 7, targetDetails := jquery } (by decide)

/-- Claim C6, evaluated on the code: tab 7 is created, the jQuery request R becomes
pending, tab 7 is removed, then the redirect event for R arrives. The listener
throws the TypeError of registerInjection, registers nothing, and the record for R
is still in the request map. -/
theorem onBeforeRedirect_removed_tab_throws :
    (onBeforeRedirect (_removeTab (enterPending tabSevenState "R" 7 jquery) 7) "R").error =
      some JSError.typeError ∧
    JSObject.get? (onBeforeRedirect (_removeTab (enterPending tabSevenState "R" 7 jquery) 7)
      "R").state.requests "R" = some { tabIdentifier := 7, targetDetails := jquery } ∧
    (onBeforeRedirect (_removeTab (enterPending tabSevenState "R" 7 jquery) 7) "R").state =
      _removeTab (enterPending tabSevenState "R" 7 jquery) 7 := by
  decide

/-! Navigation -/

/-- Claim C7: a navigation event whose tab identifier is -1 or whose frame
identifier is not 0 leaves the whole state as it is: no injection set changes and
nothing is sent to the host. -/
theorem updateTab_ignores_other_frames (s : State) (details : NavigationDetails)
    (h : details.tabId = -1 ∨ details.frameId ≠ 0) :
    _updateTab s details = s := by
  unfold _updateTab
  simp only [if_pos h]

/-- Witness for C7: a sub-frame navigation in tab 7 after jQuery was registered. -/
theorem updateTab_ignores_other_frames_witness :
    _updateTab (registerInjection tabSevenState 7 jquery).state { tabId := 7, frameId := 1 } =
      (registerInjection tabSevenState 7 jquery).state :=
  updateTab_ignores_other_frames (registerInjection tabSevenState 7 jquery).state
    { tabId := 7, frameId := 1 } (Or.inr (by decide))

/-- Claim C8: for a tab identifier t other than -1, a top-level navigation sends
set-badge-text(t, "") exactly when showIconBadge is true and nothing else, leaves
every other tab's record as it is, leaves a tracked t tracked with an empty
injection set, and leaves the tab map unchanged when t is untracked. -/
theorem updateTab_top_level_clears (s : State) (t : Int) (hne : t ≠ -1) :
    (_updateTab s { tabId := t, frameId := 0 }).log =
      s.log ++ (if s.showIconBadge = some true then [Command.setBadgeText t ""] else []) ∧
    (∀ other : Int, t ≠ other →
      JSObject.get? (_updateTab s { tabId := t, frameId := 0 }).tabs other =
        JSObject.get? s.tabs other) ∧
    (∀ registeredTab : TabRecord, JSObject.get? s.tabs t = some registeredTab →
      JSObject.get? (_updateTab s { tabId := t, frameId := 0 }).tabs t =
        some { injections := [] }) ∧
    (JSObject.get? s.tabs t = none →
      (_updateTab s { tabId := t, frameId := 0 }).tabs = s.tabs) := by
  have hguard : ¬ (t = -1 ∨ (0 : Int) ≠ 0) := by simp [hne]
  unfold _updateTab
  simp only [if_neg hguard]
  by_cases hb : s.showIconBadge = some true
  · simp only [if_pos hb]
    cases hget : JSObject.get? s.tabs t with
    | none => simp
    | some registeredTab =>
      refine ⟨by simp, ?_, ?_, by simp⟩
      · intro other hother
        exact JSObject.get?_set_ne _ _ _ _ hother
      · intro _ _
        exact JSObject.get?_set_self _ _ _
  · simp only [if_neg hb]
    cases hget : JSObject.get? s.tabs t with
    | none => simp
    | some registeredTab =>
      refine ⟨by simp, ?_, ?_, by simp⟩
      · intro other hother
        exact JSObject.get?_set_ne _ _ _ _ hother
      · intro _ _
        exact JSObject.get?_set_self _ _ _

/-- Witness for C8: tab 7 navigates top-level after jQuery was registered. -/
theorem updateTab_top_level_clears_witness :
    (_updateTab (registerInjection tabSevenState 7 jquery).state
        { tabId := 7, frameId := 0 }).log =
      (registerInjection tabSevenState 7 jquery).state.log ++
        (if (registerInjection tabSevenState 7 jquery).state.showIconBadge = some true
          then [Command.setBadgeText 7 ""] else []) ∧
    (∀ other : Int, (7 : Int) ≠ other →
      JSObject.get? (_updateTab (registerInjection tabSevenState 7 jquery).state
          { tabId := 7, frameId := 0 }).tabs other =
        JSObject.get? (registerInjection tabSevenState 7 jquery).state.tabs other) ∧
    (∀ registeredTab : TabRecord,
      JSObject.get? (registerInjection tabSevenState 7 jquery).state.tabs 7 =
          some registeredTab →
        JSObject.get? (_updateTab (registerInjection tabSevenState 7 jquery).state
            { tabId := 7, frameId := 0 }).tabs 7 =
          some { injections := [] }) ∧
    (JSObject.get? (registerInjection tabSevenState 7 jquery).state.tabs 7 = none →
      (_updateTab (registerInjection tabSevenState 7 jquery).state
          { tabId := 7, frameId := 0 }).tabs =
        (registerInjection tabSevenState 7 jquery).state.tabs) :=
  updateTab_top_level_clears (registerInjection tabSevenState 7 jquery).state 7 (by decide)

/-! Badge text -/

theorem toDigitsCore_ne_nil (b fuel n : Nat) (ds : List Char)
    (h : ds ≠ [] ∨ 0 < fuel) : Nat.toDigitsCore b fuel n ds ≠ [] := by
  induction fuel generalizing n ds with
  | zero =>
    rcases h with h | h
    · simpa [Nat.toDigitsCore] using h
    · omega
  | succ m ih =>
    simp only [Nat.toDigitsCore]
    split
    · simp
    · exact ih _ _ (Or.inl (by simp))

/-- The decimal text of a number is never the empty text. -/
theorem repr_ne_empty (n : Nat) : Nat.repr n ≠ "" := by
  intro h
  have h1 : (Nat.toDigits 10 n) = [] := by
    have := congrArg String.data h
    simpa [Nat.repr, List.asString] using this
  exact toDigitsCore_ne_nil 10 (n + 1) n [] (Or.inr (by omega)) h1

theorem badgeWrites_append (l₁ l₂ : List Command) :
    badgeWrites (l₁ ++ l₂) = badgeWrites l₁ ++ badgeWrites l₂ := by
  simp [badgeWrites, List.filterMap_append]

theorem countInjection_badgeWrites (s : State) :
    badgeWrites (countInjection s).log = badgeWrites s.log := by
  unfold countInjection
  split <;> simp [badgeWrites_append, badgeWrites]

theorem length_assign_pos {α : Type} (obj : List (String × α)) (k : String) (v : α)
    (h : k ≠ "__proto__") : 0 < (JSObject.keys (JSObject.assign obj k v)).length := by
  rw [JSObject.assign_of_ne obj k v h]
  exact JSObject.length_set_pos obj k v

theorem badgeWrites_after_registerInjection (s : State) (tabIdentifier : Int)
    (registeredTab : TabRecord) (injection : Injection)
    (htab : JSObject.get? s.tabs tabIdentifier = some registeredTab) :
    badgeWrites (registerInjection s tabIdentifier injection).state.log =
      badgeWrites s.log ++
        if s.showIconBadge = some true then
          [(tabIdentifier, badgeText (JSObject.keys (JSObject.assign registeredTab.injections
            (injectionIdentifier injection) injection)).length)]
        else [] := by
  rw [registerInjection_of_tracked s tabIdentifier registeredTab injection htab]
  simp only [countInjection_badgeWrites, badgeWrites_append, badgeCommands_eq]
  by_cases hb : s.showIconBadge = some true
  · simp only [if_pos hb]
    simp [badgeWrites]
  · simp only [if_neg hb]
    simp [badgeWrites]

/-- Claim C9 as stated fails: it is not true that on every tracked tab with
showIconBadge = true the size after the insertion is at least 1 and the badge text
is its decimal rendering. For the key `__proto__` on the empty tab 7 the size stays
0 and the command sent is set-badge-text(7, ""). -/
theorem badge_text_empty_for_proto_key :
    (¬ ∀ (s : State) (tabIdentifier : Int) (registeredTab : TabRecord)
      (injection : Injection),
      JSObject.get? s.tabs tabIdentifier = some registeredTab →
      s.showIconBadge = some true →
      1 ≤ injectionCount (registerInjection s tabIdentifier injection).state tabIdentifier ∧
      badgeWrites (registerInjection s tabIdentifier injection).state.log =
        badgeWrites s.log ++ [(tabIdentifier, Nat.repr (injectionCount
          (registerInjection s tabIdentifier injection).state tabIdentifier))]) ∧
    injectionCount (registerInjection tabSevenState 7
      { source := "__proto__", path := "", version := "" }).state 7 = 0 ∧
    badgeWrites (registerInjection tabSevenState 7
      { source := "__proto__", path := "", version := "" }).state.log = [(7, "")] := by
  refine ⟨?_, by decide, by decide⟩
  intro h
  have h2 := (h tabSevenState 7 { injections := [] }
    { source := "__proto__", path := "", version := "" } (by decide) (by decide)).1
  revert h2
  decide

/-- Claim C9, amended: on a tracked tab, registerInjection with showIconBadge = true
sends exactly one set-badge-text command, for that tab, whose text is the decimal
rendering of the size of the tab's injection set after the insertion when that size
is at least 1, and the empty text when it is 0. When the key source + path + version
of the injection is not `__proto__` the size is at least 1 and the text is the
decimal rendering, which is not empty. With showIconBadge not true it sends no
badge command. -/
theorem registerInjection_badge (s : State) (tabIdentifier : Int)
    (registeredTab : TabRecord) (injection : Injection)
    (htab : JSObject.get? s.tabs tabIdentifier = some registeredTab) :
    ∃ tab', JSObject.get? (registerInjection s tabIdentifier injection).state.tabs
        tabIdentifier = some tab' ∧
      (s.showIconBadge = some true →
        badgeWrites (registerInjection s tabIdentifier injection).state.log =
          badgeWrites s.log ++
            [(tabIdentifier, badgeText (JSObject.keys tab'.injections).length)]) ∧
      (s.showIconBadge ≠ some true →
        badgeWrites (registerInjection s tabIdentifier injection).state.log =
          badgeWrites s.log) ∧
      (injectionIdentifier injection ≠ "__proto__" →
        1 ≤ (JSObject.keys tab'.injections).length ∧
        badgeText (JSObject.keys tab'.injections).length =
          Nat.repr (JSObject.keys tab'.injections).length ∧
        Nat.repr (JSObject.keys tab'.injections).length ≠ "") := by
  refine ⟨_, registerInjection_tab s tabIdentifier registeredTab injection htab, ?_, ?_, ?_⟩
  · intro hb
    rw [badgeWrites_after_registerInjection s tabIdentifier registeredTab injection htab,
      if_pos hb]
  · intro hb
    rw [badgeWrites_after_registerInjection s tabIdentifier registeredTab injection htab,
      if_neg hb, List.append_nil]
  · intro hkey
    have hpos := length_assign_pos registeredTab.injections
      (injectionIdentifier injection) injection hkey
    refine ⟨hpos, ?_, repr_ne_empty _⟩
    unfold badgeText
    rw [if_pos hpos]

/-- Witness for C9, amended: jQuery registered in tab 7 with the badge enabled. -/
theorem registerInjection_badge_witness :
    (∃ tab', JSObject.get? (registerInjection tabSevenState 7 jquery).state.tabs 7 =
        some tab' ∧
      (tabSevenState.showIconBadge = some true →
        badgeWrites (registerInjection tabSevenState 7 jquery).state.log =
          badgeWrites tabSevenState.log ++
            [(7, badgeText (JSObject.keys tab'.injections).length)]) ∧
      (tabSevenState.showIconBadge ≠ some true →
        badgeWrites (registerInjection tabSevenState 7 jquery).state.log =
          badgeWrites tabSevenState.log) ∧
      (injectionIdentifier jquery ≠ "__proto__" →
        1 ≤ (JSObject.keys tab'.injections).length ∧
        badgeText (JSObject.keys tab'.injections).length =
          Nat.repr (JSObject.keys tab'.injections).length ∧
        Nat.repr (JSObject.keys tab'.injections).length ≠ "")) ∧
    tabSevenState.showIconBadge = some true ∧
    injectionIdentifier jquery ≠ "__proto__" ∧
    badgeWrites (registerInjection tabSevenState 7 jquery).state.log = [(7, "1")] :=
  ⟨registerInjection_badge tabSevenState 7 { injections := [] } jquery (by decide),
    by decide, by decide, by decide⟩

/-! Header sanitizer -/

/-- The loop started behind an already scanned part keeps that part and filters the rest. -/
theorem stripLoop_append (suffix scanned : List HttpHeader) :
    stripLoop (scanned ++ suffix) scanned.length =
      scanned ++ suffix.filter
        (fun h => decide (h.name ≠ "Origin" ∧ h.name ≠ "Referer")) := by
  induction suffix generalizing scanned with
  | nil =>
    rw [stripLoop]
    simp
  | cons h rest ih =>
    have hlt : scanned.length < (scanned ++ h :: rest).length := by simp
    have hidx : (scanned ++ h :: rest)[scanned.length] = h :=
      List.getElem_of_append rfl rfl
    have herase : (scanned ++ h :: rest).eraseIdx scanned.length = scanned ++ rest := by
      rw [List.eraseIdx_append_of_length_le (Nat.le_refl _)]
      simp
    have hback : (((scanned.length : Int) - 1) + 1).toNat = scanned.length := by omega
    have hstep : scanned ++ h :: rest = (scanned ++ [h]) ++ rest := by simp
    rw [stripLoop]
    simp only [dif_pos hlt, hidx, herase, hback]
    by_cases ho : h.name = "Origin"
    · simp only [if_pos ho]
      rw [ih scanned]
      simp [ho]
    · simp only [if_neg ho]
      by_cases hr : h.name = "Referer"
      · simp only [if_pos hr]
        rw [ih scanned]
        simp [hr]
      · simp only [if_neg hr]
        have hlen : scanned.length + 1 = (scanned ++ [h]).length := by simp
        rw [hstep, hlen, ih (scanned ++ [h])]
        simp [ho, hr]

/-- Claim C10: stripMetadata returns exactly the headers whose name is neither
"Origin" nor "Referer", in their original order; the removed headers are exactly
those named "Origin" or "Referer", so one of each among N others leaves N; adjacent,
repeated, first and last such headers are all removed, and headers named "origin"
or "referer" are kept. -/
theorem stripMetadata_eq_filter (requestHeaders : List HttpHeader) :
    _stripMetadata requestHeaders =
      requestHeaders.filter (fun h => decide (h.name ≠ "Origin" ∧ h.name ≠ "Referer")) ∧
    List.Sublist (_stripMetadata requestHeaders) requestHeaders ∧
    (_stripMetadata requestHeaders).length +
        requestHeaders.countP (fun h => decide (h.name = "Origin" ∨ h.name = "Referer")) =
      requestHeaders.length ∧
    _stripMetadata
        [{ name := "Origin", value := "a" }, { name := "Referer", value := "b" },
         { name := "origin", value := "c" }, { name := "Accept", value := "d" },
         { name := "Referer", value := "e" }, { name := "Referer", value := "f" },
         { name := "referer", value := "g" }, { name := "Origin", value := "h" }] =
      [{ name := "origin", value := "c" }, { name := "Accept", value := "d" },
       { name := "referer", value := "g" }] := by
  have hfilter : ∀ hs : List HttpHeader, _stripMetadata hs =
      hs.filter (fun h => decide (h.name ≠ "Origin" ∧ h.name ≠ "Referer")) := by
    intro hs
    have := stripLoop_append hs []
    simpa [_stripMetadata] using this
  refine ⟨hfilter _, ?_, ?_, ?_⟩
  · rw [hfilter]
    exact List.filter_sublist _
  · rw [hfilter]
    induction requestHeaders with
    | nil => simp
    | cons h rest ih =>
      by_cases ho : h.name = "Origin"
      · simp [ho] at ih ⊢
        omega
      · by_cases hr : h.name = "Referer"
        · simp [hr] at ih ⊢
          omega
        · simp [ho, hr] at ih ⊢
          omega
  · rw [hfilter]
    decide

/-! Settings reactor -/

theorem handleShowIconBadge_headerListeners (s : State) (changes : StorageChanges) :
    (handleShowIconBadge s changes).headerListeners = s.headerListeners := by
  unfold handleShowIconBadge
  split
  · split <;> rfl
  · rfl

theorem handleStripMetadata_of_change (s : State) (changes : StorageChanges)
    (change : StorageChange) (h : changes.stripMetadata = some change) :
    (handleStripMetadata s changes).headerListeners =
      if change.newValue = some false then s.headerListeners - 1
      else s.headerListeners - 1 + 1 := by
  unfold handleStripMetadata
  rw [h]
  by_cases hv : change.newValue = some false
  · simp [hv]
  · simp [hv]

theorem handleStripMetadata_of_no_change (s : State) (changes : StorageChanges)
    (h : changes.stripMetadata = none) : handleStripMetadata s changes = s := by
  unfold handleStripMetadata
  rw [h]

theorem handleStorageChanged_headerListeners_le (s : State) (changes : StorageChanges)
    (h : s.headerListeners ≤ 1) : (_handleStorageChanged s changes).headerListeners ≤ 1 := by
  unfold _handleStorageChanged
  cases hc : changes.stripMetadata with
  | none =>
    rw [handleStripMetadata_of_no_change _ _ hc, handleShowIconBadge_headerListeners]
    exact h
  | some change =>
    rw [handleStripMetadata_of_change _ _ change hc, handleShowIconBadge_headerListeners]
    split <;> omega

/-- After any sequence of config-change events at most one listener is registered. -/
theorem foldl_handleStorageChanged_headerListeners_le (events : List StorageChanges)
    (s : State) (h : s.headerListeners ≤ 1) :
    (events.foldl _handleStorageChanged s).headerListeners ≤ 1 := by
  induction events generalizing s with
  | nil => exact h
  | cons changes rest ih =>
    exact ih _ (handleStorageChanged_headerListeners_le s changes h)

/-- Claim C11: after any finite sequence of config-change events from the initial
state at most one header sanitizer listener is registered; a further event with a
stripMetadata change leaves 0 listeners if the new value is false and 1 otherwise;
a further event without a stripMetadata change leaves the number as it is. -/
theorem headerListeners_reconciled (events : List StorageChanges) (changes : StorageChanges) :
    (events.foldl _handleStorageChanged initialState).headerListeners ≤ 1 ∧
    (∀ change : StorageChange, changes.stripMetadata = some change →
      (_handleStorageChanged (events.foldl _handleStorageChanged initialState)
        changes).headerListeners = if change.newValue = some false then 0 else 1) ∧
    (changes.stripMetadata = none →
      (_handleStorageChanged (events.foldl _handleStorageChanged initialState)
        changes).headerListeners =
      (events.foldl _handleStorageChanged initialState).headerListeners) := by
  have hle := foldl_handleStorageChanged_headerListeners_le events initialState
    (by decide)
  generalize events.foldl _handleStorageChanged initialState = s at hle ⊢
  refine ⟨hle, ?_, ?_⟩
  · intro change hc
    unfold _handleStorageChanged
    rw [handleStripMetadata_of_change _ _ change hc, handleShowIconBadge_headerListeners]
    split <;> omega
  · intro hc
    unfold _handleStorageChanged
    rw [handleStripMetadata_of_no_change _ _ hc, handleShowIconBadge_headerListeners]

/-- Witness for C11: stripMetadata set to true twice, then set to false; and the
count after the two true events is 1, after the false event 0, after true again 1. -/
theorem headerListeners_reconciled_witness :
    ((([{ showIconBadge := none, stripMetadata := some { newValue := some true } },
        { showIconBadge := none, stripMetadata := some { newValue := some true } }] :
        List StorageChanges).foldl _handleStorageChanged initialState).headerListeners ≤ 1 ∧
    (∀ change : StorageChange,
      ({ showIconBadge := none, stripMetadata := some { newValue := some false } } :
        StorageChanges).stripMetadata = some change →
      (_handleStorageChanged
        (([{ showIconBadge := none, stripMetadata := some { newValue := some true } },
          { showIconBadge := none, stripMetadata := some { newValue := some true } }] :
          List StorageChanges).foldl _handleStorageChanged initialState)
        { showIconBadge := none, stripMetadata := some { newValue := some false } }
        ).headerListeners = if change.newValue = some false then 0 else 1) ∧
    (({ showIconBadge := none, stripMetadata := some { newValue := some false } } :
        StorageChanges).stripMetadata = none →
      (_handleStorageChanged
        (([{ showIconBadge := none, stripMetadata := some { newValue := some true } },
          { showIconBadge := none, stripMetadata := some { newValue := some true } }] :
          List StorageChanges).foldl _handleStorageChanged initialState)
        { showIconBadge := none, stripMetadata := some { newValue := some false } }
        ).headerListeners =
      (([{ showIconBadge := none, stripMetadata := some { newValue := some true } },
        { showIconBadge := none, stripMetadata := some { newValue := some true } }] :
        List StorageChanges).foldl _handleStorageChanged initialState).headerListeners)) ∧
    (([{ showIconBadge := none, stripMetadata := some { newValue := some true } },
       { showIconBadge := none, stripMetadata := some { newValue := some true } }] :
       List StorageChanges).foldl _handleStorageChanged initialState).headerListeners = 1 ∧
    (([{ showIconBadge := none, stripMetadata := some { newValue := some true } },
       { showIconBadge := none, stripMetadata := some { newValue := some true } },
       { showIconBadge := none, stripMetadata := some { newValue := some false } }] :
       List StorageChanges).foldl _handleStorageChanged initialState).headerListeners = 0 ∧
    (([{ showIconBadge := none, stripMetadata := some { newValue := some false } },
       { showIconBadge := none, stripMetadata := some { newValue := some true } }] :
       List StorageChanges).foldl _handleStorageChanged initialState).headerListeners = 1 :=
  ⟨headerListeners_reconciled
      [{ showIconBadge := none, stripMetadata := some { newValue := some true } },
       { showIconBadge := none, stripMetadata := some { newValue := some true } }]
      { showIconBadge := none, stripMetadata := some { newValue := some false } },
    by decide, by decide, by decide⟩

theorem tabQueries_append (l₁ l₂ : List Command) :
    tabQueries (l₁ ++ l₂) = tabQueries l₁ + tabQueries l₂ := by
  simp [tabQueries, List.count_append]

theorem handleStripMetadata_frame (s : State) (changes : StorageChanges) :
    (handleStripMetadata s changes).showIconBadge = s.showIconBadge ∧
    (handleStripMetadata s changes).tabs = s.tabs ∧
    badgeWrites (handleStripMetadata s changes).log = badgeWrites s.log ∧
    tabQueries (handleStripMetadata s changes).log = tabQueries s.log := by
  unfold handleStripMetadata
  split
  · split
    · refine ⟨rfl, rfl, ?_, ?_⟩
      · simp [badgeWrites_append, badgeWrites]
      · simp only [tabQueries_append]
        have h1 : tabQueries [Command.removeHeaderListener] = 0 := by decide
        have h2 : tabQueries [Command.addHeaderListener] = 0 := by decide
        omega
    · refine ⟨rfl, rfl, ?_, ?_⟩
      · simp [badgeWrites_append, badgeWrites]
      · simp only [tabQueries_append]
        have h1 : tabQueries [Command.removeHeaderListener] = 0 := by decide
        omega
  · exact ⟨rfl, rfl, rfl, rfl⟩

theorem handleShowIconBadge_of_change (s : State) (changes : StorageChanges)
    (change : StorageChange) (h : changes.showIconBadge = some change) :
    (handleShowIconBadge s changes).showIconBadge = change.newValue ∧
    (handleShowIconBadge s changes).tabs = s.tabs ∧
    badgeWrites (handleShowIconBadge s changes).log = badgeWrites s.log ∧
    tabQueries (handleShowIconBadge s changes).log =
      tabQueries s.log + (if change.newValue = some true then 0 else 1) := by
  unfold handleShowIconBadge
  rw [h]
  by_cases hv : change.newValue = some true
  · simp [hv]
  · have hne : change.newValue ≠ some true := hv
    dsimp only
    rw [if_pos hne, if_neg hv]
    refine ⟨rfl, rfl, ?_, ?_⟩
    · simp [badgeWrites_append, badgeWrites]
    · simp only [tabQueries_append]
      have h1 : tabQueries [Command.queryTabs] = 1 := by decide
      omega

theorem tabsQueryCallback_badgeWrites (tabs : List Tab) (s : State) :
    badgeWrites (tabsQueryCallback s tabs).log =
      badgeWrites s.log ++ tabs.map (fun tab => (tab.id, "")) := by
  induction tabs generalizing s with
  | nil => simp [tabsQueryCallback]
  | cons tab rest ih =>
    have hstep : tabsQueryCallback s (tab :: rest) =
        tabsQueryCallback (_removeIconBadgeFromTab s tab) rest := rfl
    rw [hstep, ih]
    simp [_removeIconBadgeFromTab, badgeWrites_append, badgeWrites]

/-- Claim C12: a config-change event that contains showIconBadge sets the in-memory
flag to the new value and itself sends no badge command. If the new value is not
true it issues one tab query, whose callback sends set-badge-text(tab, "") once for
every open tab the host delivers; if it is true it issues no tab query, so no badge
command follows. Afterwards registerInjection on a tracked tab sends its badge
command (the decimal size, or the empty text for size 0) exactly when the new value
is true. -/
theorem handleStorageChanged_showIconBadge (s : State) (changes : StorageChanges)
    (change : StorageChange) (h : changes.showIconBadge = some change) :
    (_handleStorageChanged s changes).showIconBadge = change.newValue ∧
    (_handleStorageChanged s changes).tabs = s.tabs ∧
    badgeWrites (_handleStorageChanged s changes).log = badgeWrites s.log ∧
    (change.newValue ≠ some true →
      tabQueries (_handleStorageChanged s changes).log = tabQueries s.log + 1 ∧
      ∀ openTabs : List Tab,
        badgeWrites (tabsQueryCallback (_handleStorageChanged s changes) openTabs).log =
          badgeWrites s.log ++ openTabs.map (fun tab => (tab.id, ""))) ∧
    (change.newValue = some true →
      tabQueries (_handleStorageChanged s changes).log = tabQueries s.log) ∧
    ∀ (t : Int) (registeredTab : TabRecord) (injection : Injection),
      JSObject.get? s.tabs t = some registeredTab →
      badgeWrites (registerInjection (_handleStorageChanged s changes) t injection).state.log =
        badgeWrites (_handleStorageChanged s changes).log ++
          if change.newValue = some true then
            [(t, badgeText (JSObject.keys (JSObject.assign registeredTab.injections
              (injectionIdentifier injection) injection)).length)]
          else [] := by
  obtain ⟨a1, a2, a3, a4⟩ := handleShowIconBadge_of_change s changes change h
  obtain ⟨b1, b2, b3, b4⟩ := handleStripMetadata_frame (handleShowIconBadge s changes) changes
  have hflag : (_handleStorageChanged s changes).showIconBadge = change.newValue := by
    unfold _handleStorageChanged; rw [b1, a1]
  have htabs : (_handleStorageChanged s changes).tabs = s.tabs := by
    unfold _handleStorageChanged; rw [b2, a2]
  have hbadge : badgeWrites (_handleStorageChanged s changes).log = badgeWrites s.log := by
    unfold _handleStorageChanged; rw [b3, a3]
  have hquery : tabQueries (_handleStorageChanged s changes).log =
      tabQueries s.log + (if change.newValue = some true then 0 else 1) := by
    unfold _handleStorageChanged; rw [b4, a4]
  refine ⟨hflag, htabs, hbadge, ?_, ?_, ?_⟩
  · intro hv
    refine ⟨by rw [hquery, if_neg hv], ?_⟩
    intro openTabs
    rw [tabsQueryCallback_badgeWrites, hbadge]
  · intro hv
    rw [hquery, if_pos hv, Nat.add_zero]
  · intro t registeredTab injection htab
    have htab' : JSObject.get? (_handleStorageChanged s changes).tabs t =
        some registeredTab := by rw [htabs]; exact htab
    rw [badgeWrites_after_registerInjection _ t registeredTab injection htab', hflag]

/-- Witness for C12: with tab 7 tracked and the badge enabled, showIconBadge changes
to false; tabs 7 and 9 are open. Both get the empty badge text, and a registration
afterwards sends no badge command. -/
theorem handleStorageChanged_showIconBadge_witness :
    ((_handleStorageChanged tabSevenState
        { showIconBadge := some { newValue := some false }, stripMetadata := none }
        ).showIconBadge = (StorageChange.mk (some false)).newValue ∧
    (_handleStorageChanged tabSevenState
        { showIconBadge := some { newValue := some false }, stripMetadata := none }).tabs =
      tabSevenState.tabs ∧
    badgeWrites (_handleStorageChanged tabSevenState
        { showIconBadge := some { newValue := some false }, stripMetadata := none }).log =
      badgeWrites tabSevenState.log ∧
    ((StorageChange.mk (some false)).newValue ≠ some true →
      tabQueries (_handleStorageChanged tabSevenState
          { showIconBadge := some { newValue := some false }, stripMetadata := none }).log =
        tabQueries tabSevenState.log + 1 ∧
      ∀ openTabs : List Tab,
        badgeWrites (tabsQueryCallback (_handleStorageChanged tabSevenState
            { showIconBadge := some { newValue := some false }, stripMetadata := none })
            openTabs).log =
          badgeWrites tabSevenState.log ++ openTabs.map (fun tab => (tab.id, ""))) ∧
    ((StorageChange.mk (some false)).newValue = some true →
      tabQueries (_handleStorageChanged tabSevenState
          { showIconBadge := some { newValue := some false }, stripMetadata := none }).log =
        tabQueries tabSevenState.log) ∧
    ∀ (t : Int) (registeredTab : TabRecord) (injection : Injection),
      JSObject.get? tabSevenState.tabs t = some registeredTab →
      badgeWrites (registerInjection (_handleStorageChanged tabSevenState
          { showIconBadge := some { newValue := some false }, stripMetadata := none })
          t injection).state.log =
        badgeWrites (_handleStorageChanged tabSevenState
          { showIconBadge := some { newValue := some false }, stripMetadata := none }).log ++
          if (StorageChange.mk (some false)).newValue = some true then
            [(t, badgeText (JSObject.keys (JSObject.assign registeredTab.injections
              (injectionIdentifier injection) injection)).length)]
          else []) ∧
    badgeWrites (tabsQueryCallback (_handleStorageChanged tabSevenState
        { showIconBadge := some { newValue := some false }, stripMetadata := none })
        [{ id := 7 }, { id := 9 }]).log = [(7, ""), (9, "")] ∧
    badgeWrites (registerInjection (_handleStorageChanged tabSevenState
        { showIconBadge := some { newValue := some false }, stripMetadata := none })
        7 jquery).state.log = [] ∧
    badgeWrites (registerInjection (_handleStorageChanged
        (_handleStorageChanged tabSevenState
          { showIconBadge := some { newValue := some false }, stripMetadata := none })
        { showIconBadge := some { newValue := some true }, stripMetadata := none })
        7 jquery).state.log = [(7, "1")] :=
  ⟨handleStorageChanged_showIconBadge tabSevenState
      { showIconBadge := some { newValue := some false }, stripMetadata := none }
      { newValue := some false } rfl,
    by decide, by decide, by decide⟩

/-- Claim C13, evaluated on the code: with false stored under showIconBadge the
start-up read callback sets the in-memory flag to true, not to the stored false;
the same happens when nothing is stored, and a stored true is kept. -/
theorem loadShowIconBadge_ignores_false :
    (loadShowIconBadge initialState (some false)).showIconBadge = some true ∧
    (loadShowIconBadge initialState (some false)).showIconBadge ≠ some false ∧
    (loadShowIconBadge initialState (some true)).showIconBadge = some true ∧
    (loadShowIconBadge initialState none).showIconBadge = some true ∧
    (_handleStorageChanged initialState
      { showIconBadge := some { newValue := some false }, stripMetadata := none }
      ).showIconBadge = some false := by
  decide

/-! Whitelist manager -/

theorem delete_set_of_absent {κ α : Type} [DecidableEq κ] (obj : List (κ × α)) (k : κ) (v : α)
    (h : JSObject.get? obj k = none) : JSObject.delete (JSObject.set obj k v) k = obj := by
  induction obj with
  | nil => simp [JSObject.set, JSObject.delete]
  | cons p rest ih =>
    obtain ⟨k₁, v₁⟩ := p
    by_cases hk : k₁ = k
    · simp [JSObject.get?, hk] at h
    · have h' : JSObject.get? rest k = none := by simpa [JSObject.get?, hk] using h
      simp [JSObject.set, JSObject.delete, hk, ih h']

theorem mem_set_cases {κ α : Type} [DecidableEq κ] (obj : List (κ × α)) (k : κ) (v : α)
    (p : κ × α) (h : p ∈ JSObject.set obj k v) : p = (k, v) ∨ p ∈ obj := by
  induction obj with
  | nil => simpa [JSObject.set] using h
  | cons q rest ih =>
    obtain ⟨k₁, v₁⟩ := q
    by_cases hk : k₁ = k
    · simp only [JSObject.set, if_pos hk, List.mem_cons] at h
      rcases h with h | h
      · exact Or.inl h
      · exact Or.inr (List.mem_cons_of_mem _ h)
    · simp only [JSObject.set, if_neg hk, List.mem_cons] at h
      rcases h with h | h
      · exact Or.inr (by rw [h]; exact List.mem_cons_self _ _)
      · rcases ih h with h' | h'
        · exact Or.inl h'
        · exact Or.inr (List.mem_cons_of_mem _ h')

theorem mem_of_mem_delete {κ α : Type} [DecidableEq κ] (obj : List (κ × α)) (k : κ)
    (p : κ × α) (h : p ∈ JSObject.delete obj k) : p ∈ obj := by
  induction obj with
  | nil => simp [JSObject.delete] at h
  | cons q rest ih =>
    obtain ⟨k₁, v₁⟩ := q
    by_cases hk : k₁ = k
    · simp only [JSObject.delete, if_pos hk] at h
      exact List.mem_cons_of_mem _ (ih h)
    · simp only [JSObject.delete, if_neg hk, List.mem_cons] at h
      rcases h with h | h
      · rw [h]; exact List.mem_cons_self _ _
      · exact List.mem_cons_of_mem _ (ih h)

/-- Claim C14 as stated fails: it is not true that after addDomainToWhitelist(d)
every domain d is present. For d = `__proto__` the write of `true` goes to the
inherited accessor and is ignored: the set is as before, and that unchanged set is
what is written to storage. -/
theorem whitelist_proto_not_added :
    (¬ ∀ (s : State) (domain : String),
      JSObject.get? (addDomainToWhitelist s domain).whitelistedDomains domain = some true) ∧
    (addDomainToWhitelist { initialState with whitelistedDomains := [("a.com", true)] }
      "__proto__").whitelistedDomains = [("a.com", true)] ∧
    (addDomainToWhitelist { initialState with whitelistedDomains := [("a.com", true)] }
      "__proto__").log = [Command.storageSetWhitelistedDomains [("a.com", true)]] := by
  refine ⟨?_, by decide, by decide⟩
  intro h
  have h2 := h { initialState with whitelistedDomains := [("a.com", true)] } "__proto__"
  revert h2
  decide

/-- Claim C14, amended: addDomainToWhitelist(d) leaves d present when d is not
`__proto__`, and every other domain as it was; deleteDomainFromWhitelist(d) leaves d
absent and every other domain as it was; each sends exactly one storage write, whose
whitelistedDomains value is the resulting in-memory set; and when d was absent,
delete after add gives back the set that was there before. -/
theorem whitelist_add_delete (s : State) (domain : String) :
    (domain ≠ "__proto__" →
      JSObject.get? (addDomainToWhitelist s domain).whitelistedDomains domain = some true) ∧
    (∀ other : String, domain ≠ other →
      JSObject.get? (addDomainToWhitelist s domain).whitelistedDomains other =
        JSObject.get? s.whitelistedDomains other) ∧
    JSObject.get? (deleteDomainFromWhitelist s domain).whitelistedDomains domain = none ∧
    (∀ other : String, domain ≠ other →
      JSObject.get? (deleteDomainFromWhitelist s domain).whitelistedDomains other =
        JSObject.get? s.whitelistedDomains other) ∧
    (addDomainToWhitelist s domain).log =
      s.log ++ [Command.storageSetWhitelistedDomains
        (addDomainToWhitelist s domain).whitelistedDomains] ∧
    (deleteDomainFromWhitelist s domain).log =
      s.log ++ [Command.storageSetWhitelistedDomains
        (deleteDomainFromWhitelist s domain).whitelistedDomains] ∧
    (addDomainToWhitelist s domain).storedWhitelistedDomains =
      (addDomainToWhitelist s domain).whitelistedDomains ∧
    (deleteDomainFromWhitelist s domain).storedWhitelistedDomains =
      (deleteDomainFromWhitelist s domain).whitelistedDomains ∧
    (JSObject.get? s.whitelistedDomains domain = none →
      (deleteDomainFromWhitelist (addDomainToWhitelist s domain) domain).whitelistedDomains =
        s.whitelistedDomains) := by
  refine ⟨?_, ?_, ?_, ?_, rfl, rfl, rfl, rfl, ?_⟩
  · intro hne
    show JSObject.get? (JSObject.assign s.whitelistedDomains domain true) domain = some true
    rw [JSObject.assign_of_ne _ _ _ hne]
    exact JSObject.get?_set_self _ _ _
  · intro other hne
    exact JSObject.get?_assign_ne _ _ _ _ hne
  · exact JSObject.get?_delete_self _ _
  · intro other hne
    exact JSObject.get?_delete_ne _ _ _ hne
  · intro habsent
    show JSObject.delete (JSObject.assign s.whitelistedDomains domain true) domain =
      s.whitelistedDomains
    by_cases hp : domain = "__proto__"
    · rw [hp, JSObject.assign_proto]
      exact JSObject.delete_of_absent _ _ (hp ▸ habsent)
    · rw [JSObject.assign_of_ne _ _ _ hp]
      exact delete_set_of_absent _ _ _ habsent

/-- Witness for C14, amended: the whitelist holds a.com; b.org is added and deleted. -/
theorem whitelist_add_delete_witness :
    (("b.org" ≠ "__proto__" →
      JSObject.get? (addDomainToWhitelist
        { initialState with whitelistedDomains := [("a.com", true)] }
        "b.org").whitelistedDomains "b.org" = some true) ∧
    (∀ other : String, "b.org" ≠ other →
      JSObject.get? (addDomainToWhitelist
          { initialState with whitelistedDomains := [("a.com", true)] }
          "b.org").whitelistedDomains other =
        JSObject.get? ({ initialState with whitelistedDomains := [("a.com", true)] } :
          State).whitelistedDomains other) ∧
    JSObject.get? (deleteDomainFromWhitelist
        { initialState with whitelistedDomains := [("a.com", true)] }
        "b.org").whitelistedDomains "b.org" = none ∧
    (∀ other : String, "b.org" ≠ other →
      JSObject.get? (deleteDomainFromWhitelist
          { initialState with whitelistedDomains := [("a.com", true)] }
          "b.org").whitelistedDomains other =
        JSObject.get? ({ initialState with whitelistedDomains := [("a.com", true)] } :
          State).whitelistedDomains other) ∧
    (addDomainToWhitelist { initialState with whitelistedDomains := [("a.com", true)] }
        "b.org").log =
      ({ initialState with whitelistedDomains := [("a.com", true)] } : State).log ++
        [Command.storageSetWhitelistedDomains
          (addDomainToWhitelist { initialState with whitelistedDomains := [("a.com", true)] }
            "b.org").whitelistedDomains] ∧
    (deleteDomainFromWhitelist { initialState with whitelistedDomains := [("a.com", true)] }
        "b.org").log =
      ({ initialState with whitelistedDomains := [("a.com", true)] } : State).log ++
        [Command.storageSetWhitelistedDomains
          (deleteDomainFromWhitelist
            { initialState with whitelistedDomains := [("a.com", true)] }
            "b.org").whitelistedDomains] ∧
    (addDomainToWhitelist { initialState with whitelistedDomains := [("a.com", true)] }
        "b.org").storedWhitelistedDomains =
      (addDomainToWhitelist { initialState with whitelistedDomains := [("a.com", true)] }
        "b.org").whitelistedDomains ∧
    (deleteDomainFromWhitelist { initialState with whitelistedDomains := [("a.com", true)] }
        "b.org").storedWhitelistedDomains =
      (deleteDomainFromWhitelist { initialState with whitelistedDomains := [("a.com", true)] }
        "b.org").whitelistedDomains ∧
    (JSObject.get? ({ initialState with whitelistedDomains := [("a.com", true)] } :
        State).whitelistedDomains "b.org" = none →
      (deleteDomainFromWhitelist (addDomainToWhitelist
        { initialState with whitelistedDomains := [("a.com", true)] } "b.org")
        "b.org").whitelistedDomains =
      ({ initialState with whitelistedDomains := [("a.com", true)] } :
        State).whitelistedDomains)) ∧
    "b.org" ≠ "__proto__" ∧
    JSObject.get? ({ initialState with whitelistedDomains := [("a.com", true)] } :
        State).whitelistedDomains "b.org" = none ∧
    (addDomainToWhitelist { initialState with whitelistedDomains := [("a.com", true)] }
        "b.org").whitelistedDomains = [("a.com", true), ("b.org", true)] ∧
    (deleteDomainFromWhitelist (addDomainToWhitelist
        { initialState with whitelistedDomains := [("a.com", true)] } "b.org")
        "b.org").whitelistedDomains = [("a.com", true)] :=
  ⟨whitelist_add_delete { initialState with whitelistedDomains := [("a.com", true)] } "b.org",
    by decide, by decide, by decide, by decide⟩

theorem applyWhitelistCall_entries_true (s : State) (call : WhitelistCall)
    (h : ∀ p ∈ s.whitelistedDomains, p.2 = true) :
    ∀ p ∈ (applyWhitelistCall s call).whitelistedDomains, p.2 = true := by
  intro p hp
  cases call with
  | add domain =>
    have hp2 : p ∈ JSObject.assign s.whitelistedDomains domain true := hp
    unfold JSObject.assign at hp2
    split at hp2
    · exact h p hp2
    · rcases mem_set_cases s.whitelistedDomains domain true p hp2 with hp' | hp'
      · rw [hp']
      · exact h p hp'
  | remove domain =>
    exact h p (mem_of_mem_delete s.whitelistedDomains domain p hp)

/-- Claim C15: if every entry of the whitelist maps to true, then after any
sequence of addDomainToWhitelist and deleteDomainFromWhitelist calls every entry
still maps to true. -/
theorem whitelist_entries_stay_true (calls : List WhitelistCall) (s : State)
    (h : ∀ p ∈ s.whitelistedDomains, p.2 = true) :
    ∀ p ∈ (calls.foldl applyWhitelistCall s).whitelistedDomains, p.2 = true := by
  induction calls generalizing s with
  | nil => exact h
  | cons call rest ih =>
    exact ih _ (applyWhitelistCall_entries_true s call h)

/-- Witness for C15: the whitelist holds a.com; b.org is added, a.com deleted, b.org
added again. -/
theorem whitelist_entries_stay_true_witness :
    (∀ p ∈ ({ initialState with whitelistedDomains := [("a.com", true)] } :
        State).whitelistedDomains, p.2 = true) ∧
    (∀ p ∈ (([WhitelistCall.add "b.org", WhitelistCall.remove "a.com",
        WhitelistCall.add "b.org"] : List WhitelistCall).foldl applyWhitelistCall
        { initialState with whitelistedDomains := [("a.com", true)] }).whitelistedDomains,
      p.2 = true) ∧
    (([WhitelistCall.add "b.org", WhitelistCall.remove "a.com",
        WhitelistCall.add "b.org"] : List WhitelistCall).foldl applyWhitelistCall
        { initialState with whitelistedDomains := [("a.com", true)] }).whitelistedDomains =
      [("b.org", true)] :=
  ⟨by decide,
    whitelist_entries_stay_true
      [WhitelistCall.add "b.org", WhitelistCall.remove "a.com", WhitelistCall.add "b.org"]
      { initialState with whitelistedDomains := [("a.com", true)] } (by decide),
    by decide⟩

/-! Lifetime counter before it is loaded -/

/-- Claim C16, evaluated on the code: tab 7 is tracked, the counter is not loaded
and 41 is stored. Two registerInjection calls queue two reads that both deliver 41;
after both read callbacks the in-memory and the stored counter are 42, not 43, and
both storage writes carry 42. The same holds for every stored integer n: the result
is one increment of n, not two, which is n + 1 for every n from 0 below 2^53. -/
theorem unloaded_registrations_lose_increment :
    unloadedState.amountInjected = none ∧
    unloadedState.storedAmountInjected = some 41 ∧
    (registerInjection (registerInjection unloadedState 7 jquery).state 7
      jquery).error = none ∧
    (registerInjection (registerInjection unloadedState 7 jquery).state 7
      jquery).state.pendingReads = [some 41, some 41] ∧
    (amountInjectedCallback (amountInjectedCallback
      (registerInjection (registerInjection unloadedState 7 jquery).state 7
        jquery).state)).amountInjected = some 42 ∧
    (amountInjectedCallback (amountInjectedCallback
      (registerInjection (registerInjection unloadedState 7 jquery).state 7
        jquery).state)).storedAmountInjected = some 42 ∧
    amountWrites (amountInjectedCallback (amountInjectedCallback
      (registerInjection (registerInjection unloadedState 7 jquery).state 7
        jquery).state)).log = [some 42, some 42] ∧
    (amountInjectedCallback (amountInjectedCallback
      (registerInjection (registerInjection unloadedState 7 jquery).state 7
        jquery).state)).pendingReads = [] ∧
    ∀ n : Int,
      (amountInjectedCallback (amountInjectedCallback
        (registerInjection (registerInjection
          { unloadedState with storedAmountInjected := some n } 7 jquery).state 7
          jquery).state)).amountInjected = some (jsIncrement n) ∧
      (amountInjectedCallback (amountInjectedCallback
        (registerInjection (registerInjection
          { unloadedState with storedAmountInjected := some n } 7 jquery).state 7
          jquery).state)).storedAmountInjected = some (jsIncrement n) ∧
      ∀ m : Fin (2 ^ 53),
        (amountInjectedCallback (amountInjectedCallback
          (registerInjection (registerInjection
            { unloadedState with storedAmountInjected := some (m.val : Int) } 7
            jquery).state 7 jquery).state)).amountInjected = some ((m.val : Int) + 1) ∧
        (amountInjectedCallback (amountInjectedCallback
          (registerInjection (registerInjection
            { unloadedState with storedAmountInjected := some (m.val : Int) } 7
            jquery).state 7 jquery).state)).storedAmountInjected =
          some ((m.val : Int) + 1) := by
  refine ⟨by decide, by decide, by decide, by decide, by decide, by decide, by decide,
    by decide, ?_⟩
  intro n
  refine ⟨rfl, rfl, ?_⟩
  intro m
  have hm := m.isLt
  have hinc : jsIncrement (m.val : Int) = (m.val : Int) + 1 :=
    jsIncrement_of_safe _ (by omega) (by omega)
  rw [← hinc]
  exact ⟨rfl, rfl⟩

/-! Tab registry -/

/-- Claim C17: createTab(tab) leaves a tab record for tab.id with an empty injection
set, whatever was recorded for that identifier before, leaves every other tab's
record as it was, and does not touch the pending-request map. -/
theorem createTab_fresh_record (s : State) (tab : Tab) :
    JSObject.get? (_createTab s tab).tabs tab.id = some { injections := [] } ∧
    (∀ other : Int, tab.id ≠ other →
      JSObject.get? (_createTab s tab).tabs other = JSObject.get? s.tabs other) ∧
    (_createTab s tab).requests = s.requests := by
  refine ⟨JSObject.get?_set_self _ _ _, ?_, rfl⟩
  intro other hne
  exact JSObject.get?_set_ne _ _ _ _ hne

/-- Witness for C17: tab 7 holds jQuery, request R is pending, and tab 7 is created
again: its injection set is empty and R is still pending. -/
theorem createTab_fresh_record_witness :
    (JSObject.get? (_createTab (enterPending (registerInjection tabSevenState 7 jquery).state
        "R" 7 jquery) { id := 7 }).tabs (Tab.mk 7).id = some { injections := [] } ∧
    (∀ other : Int, (Tab.mk 7).id ≠ other →
      JSObject.get? (_createTab (enterPending (registerInjection tabSevenState 7 jquery).state
          "R" 7 jquery) { id := 7 }).tabs other =
        JSObject.get? (enterPending (registerInjection tabSevenState 7 jquery).state
          "R" 7 jquery).tabs other) ∧
    (_createTab (enterPending (registerInjection tabSevenState 7 jquery).state
        "R" 7 jquery) { id := 7 }).requests =
      (enterPending (registerInjection tabSevenState 7 jquery).state
        "R" 7 jquery).requests) ∧
    injectionCount (enterPending (registerInjection tabSevenState 7 jquery).state
      "R" 7 jquery) 7 = 1 ∧
    injectionCount (_createTab (enterPending (registerInjection tabSevenState 7 jquery).state
      "R" 7 jquery) { id := 7 }) 7 = 0 :=
  ⟨createTab_fresh_record (enterPending (registerInjection tabSevenState 7 jquery).state
      "R" 7 jquery) { id := 7 },
    by decide, by decide⟩

/-! Events for unknown requests -/

theorem onErrorOccurred_of_unknown (s : State) (requestId : String)
    (h : JSObject.get? s.requests requestId = none) :
    onErrorOccurred s requestId = s := by
  have hdel : ({ s with requests := JSObject.delete s.requests requestId } : State) = s := by
    rw [JSObject.delete_of_absent s.requests requestId h]
  unfold onErrorOccurred
  split
  · rfl
  · exact hdel
  · exact hdel

theorem inheritedRequest_of_plain (s : State) (requestId : String)
    (hproto : s.requestsPrototype = none)
    (hname : requestId ∉ JSObject.objectPrototypeNames) :
    inheritedRequest s requestId = RequestLookup.absent := by
  unfold inheritedRequest
  rw [hproto]
  dsimp only
  rw [if_neg hname]

/-- Claim C19 as stated fails: it is not true that the redirect event raises no
error for every request identifier without a pending record. For the identifier
`constructor` the read finds the member inherited from Object.prototype, which is
truthy, so the listener calls registerInjection(undefined, undefined) and throws a
TypeError. -/
theorem unknown_inherited_request_throws :
    (¬ ∀ (s : State) (requestId : String),
      JSObject.get? s.requests requestId = none →
      (onBeforeRedirect s requestId).error = none) ∧
    JSObject.get? tabSevenState.requests "constructor" = none ∧
    (onBeforeRedirect tabSevenState "constructor").error = some JSError.typeError ∧
    (onBeforeRedirect tabSevenState "toString").error = some JSError.typeError ∧
    (onBeforeRedirect tabSevenState "__proto__").error = some JSError.typeError := by
  refine ⟨?_, by decide, by decide, by decide, by decide⟩
  intro h
  have h2 := h tabSevenState "constructor" (by decide)
  revert h2
  decide

/-- Claim C19, amended: for a request identifier with no pending record, the error
event leaves the whole state as it is (tab map, request map, counter, commands
sent). The redirect event does the same and does not throw when the read of the
request map yields `undefined`, which is so, with the prototype of the request map
untouched, for every identifier that is not the name of a member of
Object.prototype. When the read yields an inherited member, the redirect listener
throws a TypeError and leaves the state as it is. -/
theorem unknown_request_ignored (s : State) (requestId : String)
    (h : JSObject.get? s.requests requestId = none) :
    onErrorOccurred s requestId = s ∧
    (lookupRequest s requestId = RequestLookup.absent →
      (onBeforeRedirect s requestId).state = s ∧
      (onBeforeRedirect s requestId).error = none) ∧
    (s.requestsPrototype = none → requestId ∉ JSObject.objectPrototypeNames →
      (onBeforeRedirect s requestId).state = s ∧
      (onBeforeRedirect s requestId).error = none) ∧
    (lookupRequest s requestId = RequestLookup.inherited →
      (onBeforeRedirect s requestId).state = s ∧
      (onBeforeRedirect s requestId).error = some JSError.typeError) := by
  refine ⟨onErrorOccurred_of_unknown s requestId h, ?_, ?_, ?_⟩
  · intro habsent
    rw [onBeforeRedirect_of_absent s requestId habsent]
    exact ⟨rfl, rfl⟩
  · intro hproto hname
    have habsent : lookupRequest s requestId = RequestLookup.absent := by
      rw [lookupRequest_of_not_own s requestId h]
      exact inheritedRequest_of_plain s requestId hproto hname
    rw [onBeforeRedirect_of_absent s requestId habsent]
    exact ⟨rfl, rfl⟩
  · intro hinherited
    rw [onBeforeRedirect_of_inherited s requestId hinherited]
    exact ⟨rfl, rfl⟩

/-- Witness for C19, amended: request Q is unknown while request R is pending for
tab 7. -/
theorem unknown_request_ignored_witness :
    (onErrorOccurred (enterPending tabSevenState "R" 7 jquery) "Q" =
      enterPending tabSevenState "R" 7 jquery ∧
    (lookupRequest (enterPending tabSevenState "R" 7 jquery) "Q" = RequestLookup.absent →
      (onBeforeRedirect (enterPending tabSevenState "R" 7 jquery) "Q").state =
        enterPending tabSevenState "R" 7 jquery ∧
      (onBeforeRedirect (enterPending tabSevenState "R" 7 jquery) "Q").error = none) ∧
    ((enterPending tabSevenState "R" 7 jquery).requestsPrototype = none →
      "Q" ∉ JSObject.objectPrototypeNames →
      (onBeforeRedirect (enterPending tabSevenState "R" 7 jquery) "Q").state =
        enterPending tabSevenState "R" 7 jquery ∧
      (onBeforeRedirect (enterPending tabSevenState "R" 7 jquery) "Q").error = none) ∧
    (lookupRequest (enterPending tabSevenState "R" 7 jquery) "Q" =
        RequestLookup.inherited →
      (onBeforeRedirect (enterPending tabSevenState "R" 7 jquery) "Q").state =
        enterPending tabSevenState "R" 7 jquery ∧
      (onBeforeRedirect (enterPending tabSevenState "R" 7 jquery) "Q").error =
        some JSError.typeError)) ∧
    JSObject.get? (enterPending tabSevenState "R" 7 jquery).requests "Q" = none ∧
    lookupRequest (enterPending tabSevenState "R" 7 jquery) "Q" = RequestLookup.absent ∧
    (enterPending tabSevenState "R" 7 jquery).requestsPrototype = none ∧
    "Q" ∉ JSObject.objectPrototypeNames ∧
    (onBeforeRedirect (enterPending tabSevenState "R" 7 jquery) "Q").state =
      enterPending tabSevenState "R" 7 jquery ∧
    (onBeforeRedirect (enterPending tabSevenState "R" 7 jquery) "Q").error = none :=
  ⟨unknown_request_ignored (enterPending tabSevenState "R" 7 jquery) "Q" (by decide),
    by decide, by decide, by decide, by decide, by decide, by decide⟩

/-! Frame of `registerInjection` -/

theorem countInjection_frame (s : State) :
    (countInjection s).whitelistedDomains = s.whitelistedDomains ∧
    (countInjection s).storedWhitelistedDomains = s.storedWhitelistedDomains ∧
    (countInjection s).headerListeners = s.headerListeners := by
  unfold countInjection
  split <;> exact ⟨rfl, rfl, rfl⟩

/-- Claim C20: on a tracked tab t, registerInjection leaves every other tab's record,
the tracked tab identifiers, the pending-request map, the showIconBadge flag, the
whitelist and the listener registration as they were, and in t's injection set
every entry under a key other than the new one is kept. -/
theorem registerInjection_frame (s : State) (t : Int) (registeredTab : TabRecord)
    (injection : Injection) (htab : JSObject.get? s.tabs t = some registeredTab) :
    (∀ other : Int, t ≠ other →
      JSObject.get? (registerInjection s t injection).state.tabs other =
        JSObject.get? s.tabs other) ∧
    JSObject.keys (registerInjection s t injection).state.tabs = JSObject.keys s.tabs ∧
    (registerInjection s t injection).state.requests = s.requests ∧
    (registerInjection s t injection).state.showIconBadge = s.showIconBadge ∧
    (registerInjection s t injection).state.whitelistedDomains = s.whitelistedDomains ∧
    (registerInjection s t injection).state.storedWhitelistedDomains =
      s.storedWhitelistedDomains ∧
    (registerInjection s t injection).state.headerListeners = s.headerListeners ∧
    ∃ tab', JSObject.get? (registerInjection s t injection).state.tabs t = some tab' ∧
      ∀ key : String, injectionIdentifier injection ≠ key →
        JSObject.get? tab'.injections key = JSObject.get? registeredTab.injections key := by
  have hform := registerInjection_of_tracked s t registeredTab injection htab
  refine ⟨?_, ?_, ?_, ?_, ?_, ?_, ?_, ?_⟩
  · intro other hne
    exact registerInjection_other_tab s t other injection hne
  · rw [hform]
    simp only [countInjection_tabs]
    exact JSObject.keys_set_of_get?_some s.tabs t _ registeredTab htab
  · exact registerInjection_requests s t injection
  · rw [hform]
    simp only [countInjection_showIconBadge]
  · rw [hform]
    simp only [(countInjection_frame _).1]
  · rw [hform]
    simp only [(countInjection_frame _).2.1]
  · rw [hform]
    simp only [(countInjection_frame _).2.2]
  · refine ⟨_, registerInjection_tab s t registeredTab injection htab, ?_⟩
    intro key hne
    exact JSObject.get?_assign_ne _ _ _ _ hne

/-- Witness for C20: tabs 7 and 9 are tracked, tab 7 holds jQuery, request R is
pending; a second library is registered in tab 7. -/
theorem registerInjection_frame_witness :
    (∀ other : Int, (7 : Int) ≠ other →
      JSObject.get? (registerInjection
          (_createTab (enterPending (registerInjection tabSevenState 7 jquery).state
            "R" 7 jquery) { id := 9 }) 7
          { source := "cdnjs.cloudflare.com", path := "angular.js", version := "1.6.0" }
          ).state.tabs other =
        JSObject.get? (_createTab (enterPending (registerInjection tabSevenState 7
          jquery).state "R" 7 jquery) { id := 9 }).tabs other) ∧
    JSObject.keys (registerInjection
        (_createTab (enterPending (registerInjection tabSevenState 7 jquery).state
          "R" 7 jquery) { id := 9 }) 7
        { source := "cdnjs.cloudflare.com", path := "angular.js", version := "1.6.0" }
        ).state.tabs =
      JSObject.keys (_createTab (enterPending (registerInjection tabSevenState 7
        jquery).state "R" 7 jquery) { id := 9 }).tabs ∧
    (registerInjection
        (_createTab (enterPending (registerInjection tabSevenState 7 jquery).state
          "R" 7 jquery) { id := 9 }) 7
        { source := "cdnjs.cloudflare.com", path := "angular.js", version := "1.6.0" }
        ).state.requests =
      (_createTab (enterPending (registerInjection tabSevenState 7
        jquery).state "R" 7 jquery) { id := 9 }).requests ∧
    (registerInjection
        (_createTab (enterPending (registerInjection tabSevenState 7 jquery).state
          "R" 7 jquery) { id := 9 }) 7
        { source := "cdnjs.cloudflare.com", path := "angular.js", version := "1.6.0" }
        ).state.showIconBadge =
      (_createTab (enterPending (registerInjection tabSevenState 7
        jquery).state "R" 7 jquery) { id := 9 }).showIconBadge ∧
    (registerInjection
        (_createTab (enterPending (registerInjection tabSevenState 7 jquery).state
          "R" 7 jquery) { id := 9 }) 7
        { source := "cdnjs.cloudflare.com", path := "angular.js", version := "1.6.0" }
        ).state.whitelistedDomains =
      (_createTab (enterPending (registerInjection tabSevenState 7
        jquery).state "R" 7 jquery) { id := 9 }).whitelistedDomains ∧
    (registerInjection
        (_createTab (enterPending (registerInjection tabSevenState 7 jquery).state
          "R" 7 jquery) { id := 9 }) 7
        { source := "cdnjs.cloudflare.com", path := "angular.js", version := "1.6.0" }
        ).state.storedWhitelistedDomains =
      (_createTab (enterPending (registerInjection tabSevenState 7
        jquery).state "R" 7 jquery) { id := 9 }).storedWhitelistedDomains ∧
    (registerInjection
        (_createTab (enterPending (registerInjection tabSevenState 7 jquery).state
          "R" 7 jquery) { id := 9 }) 7
        { source := "cdnjs.cloudflare.com", path := "angular.js", version := "1.6.0" }
        ).state.headerListeners =
      (_createTab (enterPending (registerInjection tabSevenState 7
        jquery).state "R" 7 jquery) { id := 9 }).headerListeners ∧
    ∃ tab', JSObject.get? (registerInjection
        (_createTab (enterPending (registerInjection tabSevenState 7 jquery).state
          "R" 7 jquery) { id := 9 }) 7
        { source := "cdnjs.cloudflare.com", path := "angular.js", version := "1.6.0" }
        ).state.tabs 7 = some tab' ∧
      ∀ key : String,
        injectionIdentifier
          { source := "cdnjs.cloudflare.com", path := "angular.js", version := "1.6.0" } ≠
          key →
        JSObject.get? tab'.injections key =
          JSObject.get? (TabRecord.mk [(injectionIdentifier jquery, jquery)]).injections key :=
  registerInjection_frame
    (_createTab (enterPending (registerInjection tabSevenState 7 jquery).state
      "R" 7 jquery) { id := 9 }) 7
    { injections := [(injectionIdentifier jquery, jquery)] }
    { source := "cdnjs.cloudflare.com", path := "angular.js", version := "1.6.0" }
    (by decide)

/-! De-duplication identity -/

theorem get?_eq_none_iff {κ α : Type} [DecidableEq κ] (obj : List (κ × α)) (k : κ) :
    JSObject.get? obj k = none ↔ k ∉ JSObject.keys obj := by
  induction obj with
  | nil => simp [JSObject.get?, JSObject.keys]
  | cons p rest ih =>
    obtain ⟨k₁, v₁⟩ := p
    by_cases hk : k₁ = k
    · simp [JSObject.get?, JSObject.keys, hk]
    · have hk' : ¬ k = k₁ := fun h => hk h.symm
      simp only [JSObject.keys] at ih
      simp [JSObject.get?, JSObject.keys, hk, hk', ih]

theorem keys_set_cases {κ α : Type} [DecidableEq κ] (obj : List (κ × α)) (k : κ) (v : α) :
    (k ∈ JSObject.keys obj ∧ JSObject.keys (JSObject.set obj k v) = JSObject.keys obj) ∨
    (k ∉ JSObject.keys obj ∧
      JSObject.keys (JSObject.set obj k v) = JSObject.keys obj ++ [k]) := by
  cases hget : JSObject.get? obj k with
  | none =>
    exact Or.inr ⟨(get?_eq_none_iff obj k).1 hget,
      JSObject.keys_set_of_get?_none obj k v hget⟩
  | some v₀ =>
    refine Or.inl ⟨?_, JSObject.keys_set_of_get?_some obj k v v₀ hget⟩
    by_contra hmem
    rw [(get?_eq_none_iff obj k).2 hmem] at hget
    exact Option.noConfusion hget

theorem nodup_keys_set {κ α : Type} [DecidableEq κ] (obj : List (κ × α)) (k : κ) (v : α)
    (h : (JSObject.keys obj).Nodup) : (JSObject.keys (JSObject.set obj k v)).Nodup := by
  rcases keys_set_cases obj k v with ⟨_, heq⟩ | ⟨hnot, heq⟩
  · rw [heq]; exact h
  · rw [heq]
    exact List.Nodup.append h (List.nodup_singleton k) (by
      intro x hx hx'
      rw [List.mem_singleton] at hx'
      exact hnot (hx' ▸ hx))

theorem mem_keys_set {κ α : Type} [DecidableEq κ] (obj : List (κ × α)) (k k' : κ) (v : α) :
    k' ∈ JSObject.keys (JSObject.set obj k v) ↔ k' ∈ JSObject.keys obj ∨ k' = k := by
  rcases keys_set_cases obj k v with ⟨hmem, heq⟩ | ⟨_, heq⟩
  · rw [heq]
    constructor
    · exact Or.inl
    · rintro (h | h)
      · exact h
      · rw [h]; exact hmem
  · rw [heq, List.mem_append, List.mem_singleton]

theorem nodup_keys_assign {α : Type} (obj : List (String × α)) (k : String) (v : α)
    (h : (JSObject.keys obj).Nodup) : (JSObject.keys (JSObject.assign obj k v)).Nodup := by
  unfold JSObject.assign
  split
  · exact h
  · exact nodup_keys_set obj k v h

theorem mem_keys_assign {α : Type} (obj : List (String × α)) (k k' : String) (v : α) :
    k' ∈ JSObject.keys (JSObject.assign obj k v) ↔
      k' ∈ JSObject.keys obj ∨ (k' = k ∧ k ≠ "__proto__") := by
  unfold JSObject.assign
  split
  · rename_i hk
    constructor
    · exact Or.inl
    · rintro (h | ⟨_, h⟩)
      · exact h
      · exact absurd hk h
  · rename_i hk
    rw [mem_keys_set]
    constructor
    · rintro (h | h)
      · exact Or.inl h
      · exact Or.inr ⟨h, hk⟩
    · rintro (h | ⟨h, _⟩)
      · exact Or.inl h
      · exact Or.inr h

/-- The keys of a tab's injection set after a list of registrations: no key twice,
and exactly the old keys together with the keys of the registered injections other
than `__proto__`. -/
theorem registerAll_keys (injections : List Injection) (s : State) (t : Int)
    (registeredTab : TabRecord)
    (htab : JSObject.get? s.tabs t = some registeredTab)
    (hnodup : (JSObject.keys registeredTab.injections).Nodup) :
    (registerAll s t injections).error = none ∧
    ∃ tab', JSObject.get? (registerAll s t injections).state.tabs t = some tab' ∧
      (JSObject.keys tab'.injections).Nodup ∧
      ∀ key : String, key ∈ JSObject.keys tab'.injections ↔
        key ∈ JSObject.keys registeredTab.injections ∨
          (key ∈ injections.map injectionIdentifier ∧ key ≠ "__proto__") := by
  induction injections generalizing s registeredTab with
  | nil =>
    exact ⟨rfl, registeredTab, htab, hnodup, fun key => by simp⟩
  | cons injection rest ih =>
    have herr := registerInjection_error_none s t registeredTab injection htab
    have htab' := registerInjection_tab s t registeredTab injection htab
    simp only [registerAll, herr]
    obtain ⟨h1, tab', h2, h3, h4⟩ := ih _ _ htab'
      (nodup_keys_assign registeredTab.injections (injectionIdentifier injection) injection
        hnodup)
    refine ⟨h1, tab', h2, h3, ?_⟩
    intro key
    rw [h4 key, mem_keys_assign, List.map_cons, List.mem_cons]
    constructor
    · rintro ((h | ⟨h, hp⟩) | ⟨h, hp⟩)
      · exact Or.inl h
      · exact Or.inr ⟨Or.inl h, h ▸ hp⟩
      · exact Or.inr ⟨Or.inr h, hp⟩
    · rintro (h | ⟨h | h, hp⟩)
      · exact Or.inl (Or.inl h)
      · exact Or.inl (Or.inr ⟨h, h ▸ hp⟩)
      · exact Or.inr ⟨h, hp⟩

/-- Claim C18 as stated fails: it is not true that for every tracked tab with an empty
injection set and every list of injections the injection-set size is the number of
distinct (source, path, version) triples. The triples ("a", "bc", "") and
("ab", "c", "") differ and share the key "abc", so the size is 1, not 2. -/
theorem distinct_triples_may_collide :
    ¬ ∀ (s : State) (t : Int) (registeredTab : TabRecord) (injections : List Injection),
      JSObject.get? s.tabs t = some registeredTab → registeredTab.injections = [] →
      injectionCount (registerAll s t injections).state t = injections.dedup.length := by
  intro h
  have h2 := h tabSevenState 7 { injections := [] }
    [{ source := "a", path := "bc", version := "" },
     { source := "ab", path := "c", version := "" }] (by decide) rfl
  revert h2
  decide

/-- Claim C18, amended: the concatenation source + path + version is the
de-duplication identity, and the key `__proto__` is never stored. On a tracked tab
with an empty injection set, any list of registrations succeeds and leaves an
injection set whose size is the number of distinct concatenated keys in the list
other than `__proto__`. -/
theorem injectionCount_eq_distinct_keys (s : State) (t : Int) (registeredTab : TabRecord)
    (injections : List Injection)
    (htab : JSObject.get? s.tabs t = some registeredTab)
    (hempty : registeredTab.injections = []) :
    (registerAll s t injections).error = none ∧
    injectionCount (registerAll s t injections).state t =
      ((injections.map injectionIdentifier).filter
        (fun key => decide (key ≠ "__proto__"))).dedup.length := by
  obtain ⟨h1, tab', h2, h3, h4⟩ := registerAll_keys injections s t registeredTab htab
    (by simp [hempty, JSObject.keys])
  refine ⟨h1, ?_⟩
  unfold injectionCount
  rw [h2]
  apply List.Perm.length_eq
  rw [List.perm_ext_iff_of_nodup h3 (List.nodup_dedup _)]
  intro key
  rw [h4 key, List.mem_dedup, List.mem_filter]
  simp [hempty, JSObject.keys]

/-- Witness for C18, amended: jQuery, two injections that share the key "abc", the
key `__proto__`, and jQuery again give size 2 in the empty tab 7. -/
theorem injectionCount_eq_distinct_keys_witness :
    ((registerAll tabSevenState 7
        [jquery, { source := "a", path := "bc", version := "" },
         { source := "ab", path := "c", version := "" },
         { source := "__proto__", path := "", version := "" }, jquery]).error = none ∧
    injectionCount (registerAll tabSevenState 7
        [jquery, { source := "a", path := "bc", version := "" },
         { source := "ab", path := "c", version := "" },
         { source := "__proto__", path := "", version := "" }, jquery]).state 7 =
      ((([jquery, { source := "a", path := "bc", version := "" },
         { source := "ab", path := "c", version := "" },
         { source := "__proto__", path := "", version := "" }, jquery] :
         List Injection).map injectionIdentifier).filter
        (fun key => decide (key ≠ "__proto__"))).dedup.length) ∧
    injectionCount (registerAll tabSevenState 7
        [jquery, { source := "a", path := "bc", version := "" },
         { source := "ab", path := "c", version := "" },
         { source := "__proto__", path := "", version := "" }, jquery]).state 7 = 2 :=
  ⟨injectionCount_eq_distinct_keys tabSevenState 7 { injections := [] }
      [jquery, { source := "a", path := "bc", version := "" },
       { source := "ab", path := "c", version := "" },
       { source := "__proto__", path := "", version := "" }, jquery] (by decide) rfl,
    by decide⟩

end stateManager
